import Mathlib

/-!
moroz: wire enumerations and configuration resolution.

A shallow embedding of `santa/santa.go` (the five wire enumerations with their
`UnmarshalText` / `MarshalText` methods and the data model), of
`moroz/svc_rule_download.go` and of `moroz/svc_preflight.go` (the resolver
`SantaService.config`, the two service operations, their endpoints, request
decoders and logging decorators), followed by the properties proved about them.

Modelling conventions.

* A Go `string` (and the `[]byte` it is converted from) is a Lean `String`;
  string comparison in a Go `switch` is equality of strings.
* A Go `int` is an `Int`; the enumerations are named integer types, so each is
  a one-field structure over `Int` and every integer is a possible value.
* A Go `error` is its message; the `nil` error is `none`.  A Go function that
  returns `(value, error)` returns a pair here, because nothing in Go forces
  exactly one of the two to be set.
* A method with a pointer receiver that assigns through the pointer takes the
  value held before the call and returns the value held after it.
* The verb `%q` of `errors.Errorf` renders its argument with the standard
  library's `strconv.Quote`; that function is a parameter `quote` of the
  decoders.  The verb `%d` renders an integer in decimal.
* What lies outside the sources is a parameter: the config store, the wrapped
  service of a decorator, `machineIDFromRequest`, and the functions of
  `compress/zlib` and `encoding/json` (the structure `Library`).  Code that
  works on outside state threads that state through.  Clock readings are
  arguments of the decorators.
* A `defer` is written out at every return it covers.
* Where `encoding/json` calls back into the repository, the call is written
  out: `json.Decode` hands the JSON strings of the two enumeration fields of a
  `PreflightPayload` to their `UnmarshalText`, over a scanner that is a
  parameter.
-/

namespace santa

/-- Go's `error`, carried as its message. -/
abbrev Error := String

/-- The call `errors.Errorf(msg ++ "%q", t)`: the text before the verb followed by
the quoted rendering of `t`. -/
def Errorf_q (quote : String → String) (msg : String) (t : String) : Error :=
  msg ++ quote t

/-- The call `errors.Errorf(msg ++ "%d", n)`: the text before the verb followed by
`n` in decimal. -/
def Errorf_d (msg : String) (n : Int) : Error :=
  msg ++ toString n

/-! ## RuleType -/

/-- RuleType represents a Santa rule type (`type RuleType int`). -/
structure RuleType where
  val : Int
deriving DecidableEq, Repr, Inhabited

abbrev RuleTypeUnknown : RuleType := ⟨0⟩
abbrev Binary : RuleType := ⟨1⟩
abbrev Certificate : RuleType := ⟨2⟩
abbrev TeamID : RuleType := ⟨3⟩
abbrev SigningID : RuleType := ⟨4⟩
abbrev CdHash : RuleType := ⟨5⟩

/-- The method `(r *RuleType) UnmarshalText(text []byte) error`: `r` is the value
behind the receiver before the call, the result is the value behind it after the
call together with the returned error. -/
def RuleType.UnmarshalText (quote : String → String) (r : RuleType) (text : String) :
    RuleType × Option Error :=
  match text with
  | "RULETYPE_UNKNOWN" => (RuleTypeUnknown, none)
  | "BINARY" => (Binary, none)
  | "CERTIFICATE" => (Certificate, none)
  | "TEAMID" => (TeamID, none)
  | "SIGNINGID" => (SigningID, none)
  | "CDHASH" => (CdHash, none)
  | t => (r, some (Errorf_q quote "unknown rule_type value " t))

/-- The method `(r RuleType) MarshalText() ([]byte, error)`; a `nil` byte slice is
`none`. -/
def RuleType.MarshalText (r : RuleType) : Option String × Option Error :=
  if r = RuleTypeUnknown then (some "RULETYPE_UNKNOWN", none)
  else if r = Binary then (some "BINARY", none)
  else if r = Certificate then (some "CERTIFICATE", none)
  else if r = TeamID then (some "TEAMID", none)
  else if r = SigningID then (some "SIGNINGID", none)
  else if r = CdHash then (some "CDHASH", none)
  else (none, some (Errorf_d "unknown rule_type " r.val))

/-! ## Policy -/

/-- Policy represents the Santa Rule Policy (`type Policy int`). -/
structure Policy where
  val : Int
deriving DecidableEq, Repr, Inhabited

abbrev PolicyUnknown : Policy := ⟨0⟩
abbrev Allowlist : Policy := ⟨1⟩
abbrev AllowlistCompiler : Policy := ⟨2⟩
abbrev Blocklist : Policy := ⟨3⟩
abbrev SilentBlocklist : Policy := ⟨4⟩
abbrev Remove : Policy := ⟨5⟩
abbrev Cel : Policy := ⟨6⟩

/-- The method `(p *Policy) UnmarshalText(text []byte) error`, the cases in the
order of the source; the last four are the backward-compatible aliases. -/
def Policy.UnmarshalText (quote : String → String) (p : Policy) (text : String) :
    Policy × Option Error :=
  match text with
  | "ALLOWLIST" => (Allowlist, none)
  | "ALLOWLIST_COMPILER" => (AllowlistCompiler, none)
  | "BLOCKLIST" => (Blocklist, none)
  | "SILENT_BLOCKLIST" => (SilentBlocklist, none)
  | "REMOVE" => (Remove, none)
  | "CEL" => (Cel, none)
  | "POLICY_UNKNOWN" => (PolicyUnknown, none)
  | "WHITELIST" => (Allowlist, none)
  | "WHITELIST_COMPILER" => (AllowlistCompiler, none)
  | "BLACKLIST" => (Blocklist, none)
  | "SILENT_BLACKLIST" => (SilentBlocklist, none)
  | t => (p, some (Errorf_q quote "unknown policy value " t))

/-- The method `(p Policy) MarshalText() ([]byte, error)`. -/
def Policy.MarshalText (p : Policy) : Option String × Option Error :=
  if p = PolicyUnknown then (some "POLICY_UNKNOWN", none)
  else if p = Allowlist then (some "ALLOWLIST", none)
  else if p = AllowlistCompiler then (some "ALLOWLIST_COMPILER", none)
  else if p = Blocklist then (some "BLOCKLIST", none)
  else if p = SilentBlocklist then (some "SILENT_BLOCKLIST", none)
  else if p = Remove then (some "REMOVE", none)
  else if p = Cel then (some "CEL", none)
  else (none, some (Errorf_d "unknown policy " p.val))

/-! ## ClientMode -/

/-- ClientMode specifies which mode the Santa client will evaluate rules in
(`type ClientMode int`). -/
structure ClientMode where
  val : Int
deriving DecidableEq, Repr, Inhabited

abbrev Monitor : ClientMode := ⟨0⟩
abbrev Lockdown : ClientMode := ⟨1⟩

/-- The method `(c *ClientMode) UnmarshalText(text []byte) error`. -/
def ClientMode.UnmarshalText (quote : String → String) (c : ClientMode) (text : String) :
    ClientMode × Option Error :=
  match text with
  | "MONITOR" => (Monitor, none)
  | "LOCKDOWN" => (Lockdown, none)
  | mode => (c, some (Errorf_q quote "unknown client_mode value " mode))

/-- The method `(c ClientMode) MarshalText() ([]byte, error)`. -/
def ClientMode.MarshalText (c : ClientMode) : Option String × Option Error :=
  if c = Monitor then (some "MONITOR", none)
  else if c = Lockdown then (some "LOCKDOWN", none)
  else (none, some (Errorf_d "unknown client_mode " c.val))

/-! ## SyncType -/

/-- SyncType mirrors the Santa sync_type values (`type SyncType int`). -/
structure SyncType where
  val : Int
deriving DecidableEq, Repr, Inhabited

abbrev SyncTypeUnspecified : SyncType := ⟨0⟩
abbrev SyncTypeNormal : SyncType := ⟨1⟩
abbrev SyncTypeClean : SyncType := ⟨2⟩
abbrev SyncTypeCleanAll : SyncType := ⟨3⟩

/-- The method `(s *SyncType) UnmarshalText(text []byte) error`. -/
def SyncType.UnmarshalText (quote : String → String) (s : SyncType) (text : String) :
    SyncType × Option Error :=
  match text with
  | "" => (SyncTypeUnspecified, none)
  | "SYNC_TYPE_UNSPECIFIED" => (SyncTypeUnspecified, none)
  | "NORMAL" => (SyncTypeNormal, none)
  | "CLEAN" => (SyncTypeClean, none)
  | "CLEAN_ALL" => (SyncTypeCleanAll, none)
  | t => (s, some (Errorf_q quote "unknown sync_type value " t))

/-- The method `(s SyncType) MarshalText() ([]byte, error)`. -/
def SyncType.MarshalText (s : SyncType) : Option String × Option Error :=
  if s = SyncTypeUnspecified then (some "SYNC_TYPE_UNSPECIFIED", none)
  else if s = SyncTypeNormal then (some "NORMAL", none)
  else if s = SyncTypeClean then (some "CLEAN", none)
  else if s = SyncTypeCleanAll then (some "CLEAN_ALL", none)
  else (none, some (Errorf_d "unknown sync_type " s.val))

/-! ## FileAccessAction -/

/-- FileAccessAction controls Santa's temporary file access remount behaviour
(`type FileAccessAction int`). -/
structure FileAccessAction where
  val : Int
deriving DecidableEq, Repr, Inhabited

abbrev FileAccessActionUnspecified : FileAccessAction := ⟨0⟩
abbrev FileAccessActionNone : FileAccessAction := ⟨1⟩
abbrev FileAccessActionAuditOnly : FileAccessAction := ⟨2⟩
abbrev FileAccessActionDisable : FileAccessAction := ⟨3⟩

/-- The method `(a *FileAccessAction) UnmarshalText(text []byte) error`. -/
def FileAccessAction.UnmarshalText (quote : String → String) (a : FileAccessAction)
    (text : String) : FileAccessAction × Option Error :=
  match text with
  | "" => (FileAccessActionUnspecified, none)
  | "FILE_ACCESS_ACTION_UNSPECIFIED" => (FileAccessActionUnspecified, none)
  | "NONE" => (FileAccessActionNone, none)
  | "none" => (FileAccessActionNone, none)
  | "AUDIT_ONLY" => (FileAccessActionAuditOnly, none)
  | "auditonly" => (FileAccessActionAuditOnly, none)
  | "DISABLE" => (FileAccessActionDisable, none)
  | "disable" => (FileAccessActionDisable, none)
  | t => (a, some (Errorf_q quote "unknown override_file_access_action value " t))

/-- The method `(a FileAccessAction) MarshalText() ([]byte, error)`. -/
def FileAccessAction.MarshalText (a : FileAccessAction) : Option String × Option Error :=
  if a = FileAccessActionUnspecified then (some "FILE_ACCESS_ACTION_UNSPECIFIED", none)
  else if a = FileAccessActionNone then (some "none", none)
  else if a = FileAccessActionAuditOnly then (some "auditonly", none)
  else if a = FileAccessActionDisable then (some "disable", none)
  else (none, some (Errorf_d "unknown override_file_access_action " a.val))

/-! ## The wire-enumeration table -/

/-- The tokens the wire-enumeration table of the specification lists for
`RuleType`. -/
def RuleType.tokens : List String :=
  ["RULETYPE_UNKNOWN", "BINARY", "CERTIFICATE", "TEAMID", "SIGNINGID", "CDHASH"]

/-- The tokens the wire-enumeration table of the specification lists for `Policy`:
the canonical tokens, then the decode aliases. -/
def Policy.tokens : List String :=
  ["POLICY_UNKNOWN", "ALLOWLIST", "ALLOWLIST_COMPILER", "BLOCKLIST", "SILENT_BLOCKLIST",
    "REMOVE", "CEL", "WHITELIST", "WHITELIST_COMPILER", "BLACKLIST", "SILENT_BLACKLIST"]

/-- The tokens the wire-enumeration table of the specification lists for
`ClientMode`. -/
def ClientMode.tokens : List String := ["MONITOR", "LOCKDOWN"]

/-- The tokens the wire-enumeration table of the specification lists for
`SyncType`, the empty token included. -/
def SyncType.tokens : List String :=
  ["", "SYNC_TYPE_UNSPECIFIED", "NORMAL", "CLEAN", "CLEAN_ALL"]

/-- The tokens the wire-enumeration table of the specification lists for
`FileAccessAction`: the empty token, the four upper-case tokens, then the
lower-case decode aliases. -/
def FileAccessAction.tokens : List String :=
  ["", "FILE_ACCESS_ACTION_UNSPECIFIED", "NONE", "AUDIT_ONLY", "DISABLE",
    "none", "auditonly", "disable"]

/-- Two tokens are spelled alike up to the case of their letters. -/
def sameSpelling (t u : String) : Prop :=
  t.toList.map Char.toUpper = u.toList.map Char.toUpper

instance sameSpelling.decidable (t u : String) : Decidable (sameSpelling t u) :=
  inferInstanceAs (Decidable (t.toList.map Char.toUpper = u.toList.map Char.toUpper))

/-! ## The configuration data model -/

/-- SignedPost describes a pre-signed POST destination for uploads; the Go map
`FormValues` is a list of key and value pairs. -/
structure SignedPost where
  URL : String
  FormValues : List (String × String)
deriving DecidableEq, Repr, Inhabited

/-- ExportConfiguration encapsulates export destinations Santa can push data to;
a `nil` pointer is `none`. -/
structure ExportConfiguration where
  SignedPost : Option santa.SignedPost
deriving DecidableEq, Repr, Inhabited

/-- Rule is a Santa rule. -/
structure Rule where
  RuleType : santa.RuleType
  Policy : santa.Policy
  Identifier : String
  CustomMessage : String
  CustomUrl : String
  FileBundleBinaryCount : Option Int
  FileBundleHash : Option String
  DeprecatedSHA256 : Option String
deriving DecidableEq, Repr, Inhabited

/-- Preflight represents sync response sent to a Santa client by the sync server. -/
structure Preflight where
  ClientMode : santa.ClientMode
  SyncType : santa.SyncType
  BatchSize : Int
  FullSyncIntervalSeconds : Int
  PushNotificationFullSyncIntervalSeconds : Int
  PushNotificationGlobalRuleSyncDeadlineSeconds : Int
  BlockedPathRegex : String
  AllowedPathRegex : String
  BlockUSBMount : Bool
  RemountUSBMode : List String
  OverrideFileAccessAction : santa.FileAccessAction
  EventDetailURL : String
  EventDetailText : String
  ExportConfiguration : Option santa.ExportConfiguration
  EnableAllEventUpload : Bool
  DisableUnknownEventUpload : Bool
  EnableBundles : Bool
  EnableTransitiveRules : Bool
  CleanSync : Bool
  DeprecatedBundlesEnabled : Bool
  DeprecatedWhitelistRegex : String
  DeprecatedBlacklistRegex : String
  DeprecatedEnabledTransitiveWhitelisting : Bool
  DeprecatedTransitiveWhitelistingEnabled : Bool
  DeprecatedFcmFullSyncIntervalSeconds : Int
  DeprecatedFcmGlobalRuleSyncDeadlineSeconds : Int
deriving DecidableEq, Repr, Inhabited

/-- Config represents the combination of the Preflight configuration and Rules
for a given MachineID; the embedded struct is the field `Preflight`. -/
structure Config where
  MachineID : String
  Preflight : santa.Preflight
  Rules : List Rule
deriving DecidableEq, Repr, Inhabited

/-- A PreflightPayload represents the request sent by a santa client to the sync
server. -/
structure PreflightPayload where
  SerialNumber : String
  Hostname : String
  OSVersion : String
  OSBuild : String
  ModelIdentifier : String
  SantaVersion : String
  PrimaryUser : String
  PushNotificationToken : String
  BinaryRuleCount : Int
  CertificateRuleCount : Int
  CompilerRuleCount : Int
  TransitiveRuleCount : Int
  TeamIDRuleCount : Int
  SigningIDRuleCount : Int
  CdHashRuleCount : Int
  ClientMode : santa.ClientMode
  RequestCleanSync : Bool
  BlockedPathRegex : String
  AllowedPathRegex : String
  BlockUSBMount : Bool
  RemountUSBMode : List String
  OverrideFileAccessAction : santa.FileAccessAction
  DisableUnknownEventUpload : Bool
  MachineID : String
deriving DecidableEq, Repr, Inhabited

end santa

namespace moroz

/-- The store behind `SantaService.repo`, of which the service calls the one
method `Config(ctx, machineID) (santa.Config, error)`.  The store is outside the
service: a call may read and change the store's state `σ`, and may return a
`Config` together with an error. -/
structure ConfigStore (Ctx σ : Type) where
  Config : Ctx → String → σ → (santa.Config × Option santa.Error) × σ

/-- The struct `SantaService`, of which the resolver uses the field `repo`. -/
structure SantaService (Ctx σ : Type) where
  repo : ConfigStore Ctx σ

/-- The method `(svc *SantaService) config(ctx, machineID) (santa.Config, error)`:
try the machine ID config first, and if that fails return the global config
instead. -/
def SantaService.config {Ctx σ : Type} (svc : SantaService Ctx σ) (ctx : Ctx)
    (machineID : String) (s : σ) : (santa.Config × Option santa.Error) × σ :=
  match svc.repo.Config ctx machineID s with
  | ((config, none), s1) => ((config, none), s1)
  | ((_, some _), s1) => svc.repo.Config ctx "global" s1

/-- The document of `known-machine` in the example store: one rule, the zero
Preflight. -/
def knownDocument : santa.Config :=
  santa.Config.mk "known-machine" default
    [santa.Rule.mk santa.Binary santa.Blocklist "2dc1" "" "" none none none]

/-- The `global` document of the example store: Lockdown mode, a full sync every
600 seconds, no rules. -/
def globalDocument : santa.Config :=
  santa.Config.mk "global"
    (santa.Preflight.mk santa.Lockdown default 0 600 0 0 "" "" false [] default "" "" none
      false false false false false false "" "" false false 0 0) []

/-- A store that counts its lookups in its state and holds two documents, one
for `known-machine` and one for `global`; the lookup of any other key fails. -/
def exampleStore : ConfigStore Unit Nat where
  Config := fun _ machineID n =>
    if machineID = "known-machine" then ((knownDocument, none), n + 1)
    else if machineID = "global" then ((globalDocument, none), n + 1)
    else ((default, some ("no config for " ++ machineID)), n + 1)

/-- A store that counts its lookups in its state and holds no document at all,
not even `global`. -/
def emptyStore : ConfigStore Unit Nat where
  Config := fun _ machineID n => ((default, some ("no config for " ++ machineID)), n + 1)

/-- A store that counts its lookups in its state, and whose every lookup fails
and yet returns a document with a rule alongside the error. -/
def failingStore : ConfigStore Unit Nat where
  Config := fun _ machineID n =>
    ((knownDocument, some ("store unavailable for " ++ machineID)), n + 1)

/-! ## The service and its endpoints -/

/-- The interface `Service` that the endpoints and the decorators are written
against, with the two operations whose sources are at hand.  An implementation
works on a state `σ` of its own; a `nil` pointer result is `none`, a `nil` slice
is the empty list. -/
structure Service (Ctx σ : Type) where
  Preflight : Ctx → String → santa.PreflightPayload → σ →
    (Option santa.Preflight × Option santa.Error) × σ
  RuleDownload : Ctx → String → σ → (List santa.Rule × Option santa.Error) × σ

/-- The method `(svc *SantaService) Preflight(ctx, machineID, p)
(*santa.Preflight, error)`. -/
def SantaService.Preflight {Ctx σ : Type} (svc : SantaService Ctx σ) (ctx : Ctx)
    (machineID : String) (_p : santa.PreflightPayload) (s : σ) :
    (Option santa.Preflight × Option santa.Error) × σ :=
  match svc.config ctx machineID s with
  | ((_, some err), s1) => ((none, some err), s1)
  | ((config, none), s1) =>
    let pre := config.Preflight
    ((some pre, none), s1)

/-- The method `(svc *SantaService) RuleDownload(ctx, machineID)
([]santa.Rule, error)`. -/
def SantaService.RuleDownload {Ctx σ : Type} (svc : SantaService Ctx σ) (ctx : Ctx)
    (machineID : String) (s : σ) : (List santa.Rule × Option santa.Error) × σ :=
  match svc.config ctx machineID s with
  | ((config, err), s1) => ((config.Rules, err), s1)

/-- The struct `SantaService` as an implementation of `Service`. -/
def SantaService.asService {Ctx σ : Type} (svc : SantaService Ctx σ) : Service Ctx σ where
  Preflight := svc.Preflight
  RuleDownload := svc.RuleDownload

/-- The struct `preflightRequest`. -/
structure preflightRequest where
  MachineID : String
  payload : santa.PreflightPayload
deriving DecidableEq, Repr, Inhabited

/-- The struct `preflightResponse`, whose embedded pointer is the field
`Preflight`. -/
structure preflightResponse where
  Preflight : Option santa.Preflight
  Err : Option santa.Error
deriving DecidableEq, Repr, Inhabited

/-- The method `(r preflightResponse) Failed() error`. -/
def preflightResponse.Failed (r : preflightResponse) : Option santa.Error := r.Err

/-- The function `makePreflightEndpoint(svc Service) endpoint.Endpoint`: the
endpoint takes the request, already of type `preflightRequest`, and returns the
response together with the transport-level error. -/
def makePreflightEndpoint {Ctx σ : Type} (svc : Service Ctx σ) (ctx : Ctx)
    (request : preflightRequest) (s : σ) : (preflightResponse × Option santa.Error) × σ :=
  let req := request
  match svc.Preflight ctx req.MachineID req.payload s with
  | ((_, some err), s1) => ((⟨none, some err⟩, none), s1)
  | ((preflight, none), s1) => ((⟨preflight, none⟩, none), s1)

/-- The struct `ruleRequest`. -/
structure ruleRequest where
  MachineID : String
  Cursor : String
deriving DecidableEq, Repr, Inhabited

/-- The struct `rulesResponse`. -/
structure rulesResponse where
  Rules : List santa.Rule
  Cursor : String
  Err : Option santa.Error
deriving DecidableEq, Repr, Inhabited

/-- The method `(r rulesResponse) Failed() error`. -/
def rulesResponse.Failed (r : rulesResponse) : Option santa.Error := r.Err

/-- The function `makeRuleDownloadEndpoint(svc Service) endpoint.Endpoint`: the
endpoint takes the request, already of type `ruleRequest`, and returns the
response together with the transport-level error. -/
def makeRuleDownloadEndpoint {Ctx σ : Type} (svc : Service Ctx σ) (ctx : Ctx)
    (request : ruleRequest) (s : σ) : (rulesResponse × Option santa.Error) × σ :=
  let req := request
  match svc.RuleDownload ctx req.MachineID s with
  | ((_, some err), s1) => ((⟨[], "", some err⟩, none), s1)
  | ((rules, none), s1) => ((⟨rules, "", none⟩, none), s1)

/-! ## Request decoding -/

/-- A byte slice. -/
abbrev Bytes := List UInt8

/-- What an `io.Reader` delivers when read to its end: the bytes, then the error
that ended the reading, `none` when it ended with `io.EOF`. -/
structure Stream where
  data : Bytes
  err : Option santa.Error
deriving DecidableEq, Repr, Inhabited

/-- The reader `bytes.NewReader(b)`: the bytes, then `io.EOF`. -/
def bytes.NewReader (b : Bytes) : Stream := ⟨b, none⟩

/-- The function `io.ReadAll`, whose error is nil when the reader ends with
`io.EOF`. -/
def io.ReadAll (st : Stream) : Bytes × Option santa.Error := (st.data, st.err)

/-- The body of a request, `r.Body`: what reading it delivers, whether it has
been read from, and whether it has been closed. -/
structure Body where
  stream : Stream
  read : Bool
  closed : Bool
deriving DecidableEq, Repr, Inhabited

/-- The body after something has been read from it. -/
def Body.Read (b : Body) : Body := { b with read := true }

/-- The body after `r.Body.Close()`. -/
def Body.Close (b : Body) : Body := { b with closed := true }

/-- The `*http.Request` handed to a decoder: its body, and under `route` all of
the rest (URL, headers, router variables), from which the machine id is taken. -/
structure Request (π : Type) where
  route : π
  Body : moroz.Body

/-- The anonymous struct that `decodeRuleRequest` unmarshals the payload into. -/
structure ruleRequestBody where
  Cursor : String
  MachineID : String
deriving DecidableEq, Repr, Inhabited

/-- The functions of the standard library that the decoders call, as parameters.

* `zlib_NewReader st` is the error of `zlib.NewReader` on a reader delivering
  `st`, `none` when the header is accepted and a reader is returned;
* `zlib_Read st` is what that reader then delivers: the decompressed bytes and
  the error that ends them;
* `json_Unmarshal payload` is the struct and the error after
  `json.Unmarshal(payload, &body)` on a zero `body`;
* `json_Decode st` is the payload and the error after
  `json.NewDecoder(zr).Decode(&req.payload)` on a zero payload, `zr` delivering
  `st`. -/
structure Library where
  zlib_NewReader : Stream → Option santa.Error
  zlib_Read : Stream → Stream
  json_Unmarshal : Bytes → ruleRequestBody × Option santa.Error
  json_Decode : Stream → santa.PreflightPayload × Option santa.Error

/-- What a decoder leaves behind when it returns: the body of the request, and
for every zlib reader it opened whether that reader has been closed. -/
structure Resources where
  Body : moroz.Body
  zlibReaders : List Bool
deriving DecidableEq, Repr, Inhabited

/-- The function `decodeRuleRequest(ctx, r) (interface{}, error)`.  The function
`machineIDFromRequest` of the repository is a parameter.  The deferred
`r.Body.Close()` runs on every return, the deferred `zr.Close()` on every return
after the reader was opened. -/
def decodeRuleRequest {π : Type} (lib : Library)
    (machineIDFromRequest : π → String × Option santa.Error) (r : Request π) :
    (Option ruleRequest × Option santa.Error) × Resources :=
  match machineIDFromRequest r.route with
  | (_, some err) => ((none, some err), ⟨r.Body.Close, []⟩)
  | (id, none) =>
    let req : ruleRequest := ⟨id, ""⟩
    let bodyBytes := (io.ReadAll r.Body.stream).1
    if bodyBytes.length = 0 then ((some req, none), ⟨r.Body.Read.Close, []⟩)
    else
      let opened := lib.zlib_NewReader (bytes.NewReader bodyBytes)
      let payload :=
        match opened with
        | some _ => bodyBytes
        | none =>
          match io.ReadAll (lib.zlib_Read (bytes.NewReader bodyBytes)) with
          | (decompressed, none) => decompressed
          | (_, some _) => bodyBytes
      let req :=
        match lib.json_Unmarshal payload with
        | (body, none) =>
          let req : ruleRequest := if body.Cursor ≠ "" then { req with Cursor := body.Cursor }
            else req
          if body.MachineID ≠ "" then { req with MachineID := body.MachineID } else req
        | (_, some _) => req
      ((some req, none),
        ⟨r.Body.Read.Close, match opened with | none => [true] | some _ => []⟩)

/-- The function `decodePreflightRequest(ctx, r) (interface{}, error)`.  The
function `machineIDFromRequest` of the repository is a parameter.  The two
`defer` statements come after the return on a rejected header. -/
def decodePreflightRequest {π : Type} (lib : Library)
    (machineIDFromRequest : π → String × Option santa.Error) (r : Request π) :
    (Option preflightRequest × Option santa.Error) × Resources :=
  match lib.zlib_NewReader r.Body.stream with
  | some err => ((none, some err), ⟨r.Body.Read, []⟩)
  | none =>
    match machineIDFromRequest r.route with
    | (_, some err) => ((none, some err), ⟨r.Body.Read.Close, [true]⟩)
    | (id, none) =>
      let req : preflightRequest := ⟨id, default⟩
      match lib.json_Decode (lib.zlib_Read r.Body.stream) with
      | (_, some err) => ((none, some err), ⟨r.Body.Read.Close, [true]⟩)
      | (payload, none) =>
        ((some { req with payload := payload }, none), ⟨r.Body.Read.Close, [true]⟩)

/-! ## The JSON decoder and the text unmarshalers

`santa.ClientMode` and `santa.FileAccessAction` implement
`encoding.TextUnmarshaler`: when `Decode` fills a `PreflightPayload` it hands
the content of a JSON string found under `client_mode` or
`override_file_access_action` to the `UnmarshalText` of the field, and it
reports the earliest error that it saved.  What the decoder does without the
repository's methods stays a parameter, the scanner. -/

/-- A member of the JSON object as `Decode` meets it, in the order of the
document: a member that the decoder stores by itself (`set` is what it does to
the payload, `err` the error it saves, as for a value of the wrong type), or a
JSON string under `client_mode` or `override_file_access_action`, whose content
goes to `UnmarshalText`. -/
inductive JsonMember where
  | plain (set : santa.PreflightPayload → santa.PreflightPayload) (err : Option santa.Error)
  | client_mode (t : String)
  | override_file_access_action (t : String)

/-- What the decoder reads off a stream before it stores anything: the error
that ends the decoding at once (a syntax error, or the reader's error before
the value is complete), and the members of the object. -/
structure JsonScan where
  err : Option santa.Error
  members : List JsonMember

/-- The method `saveError` of the decoder: the first error is kept. -/
def json.saveError (saved err : Option santa.Error) : Option santa.Error :=
  match saved with
  | some e => some e
  | none => err

/-- One member stored into the payload decoded so far, with the saved error. -/
def json.decodeMember (quote : String → String) (m : JsonMember)
    (acc : santa.PreflightPayload × Option santa.Error) :
    santa.PreflightPayload × Option santa.Error :=
  match m with
  | .plain set err => (set acc.1, json.saveError acc.2 err)
  | .client_mode t =>
    let res := santa.ClientMode.UnmarshalText quote acc.1.ClientMode t
    ({ acc.1 with ClientMode := res.1 }, json.saveError acc.2 res.2)
  | .override_file_access_action t =>
    let res := santa.FileAccessAction.UnmarshalText quote acc.1.OverrideFileAccessAction t
    ({ acc.1 with OverrideFileAccessAction := res.1 }, json.saveError acc.2 res.2)

/-- The members stored one after the other. -/
def json.decodeMembers (quote : String → String) (ms : List JsonMember)
    (acc : santa.PreflightPayload × Option santa.Error) :
    santa.PreflightPayload × Option santa.Error :=
  ms.foldl (fun acc m => json.decodeMember quote m acc) acc

/-- The call `json.NewDecoder(zr).Decode(&req.payload)` on a zero payload, `zr`
delivering `st`, over the scanner `scan`. -/
def json.Decode (quote : String → String) (scan : Stream → JsonScan) (st : Stream) :
    santa.PreflightPayload × Option santa.Error :=
  match (scan st).err with
  | some err => (default, some err)
  | none => json.decodeMembers quote (scan st).members (default, none)

/-- The library `lib` with `json.Decode` over the scanner `scan` as its
`json_Decode`. -/
def Library.withDecode (lib : Library) (quote : String → String) (scan : Stream → JsonScan) :
    Library :=
  { lib with json_Decode := json.Decode quote scan }

/-! ## A library to evaluate the decoders on

The theorems hold for every `Library`.  To evaluate the decoders on concrete
requests, the definitions below give one: a zlib that reads and writes streams of
a single stored block, and a JSON reader for objects whose members are strings
without escapes. -/

/-- The bytes of a text of ASCII characters. -/
def ascii (s : String) : Bytes := s.toList.map (fun c => c.toNat.toUInt8)

/-- The two sums of the Adler-32 checksum that ends a zlib stream. -/
def adler32 (b : Bytes) : Nat × Nat :=
  b.foldl (fun (acc : Nat × Nat) x =>
    ((acc.1 + x.toNat) % 65521, (acc.2 + (acc.1 + x.toNat) % 65521) % 65521)) (1, 0)

/-- The zlib stream that holds `b`, fewer than 65536 bytes, in one stored block:
the header `78 01`, the block header with the length and its complement, the
bytes, and the checksum. -/
def exampleDeflate (b : Bytes) : Bytes :=
  let n := b.length
  let sums := adler32 b
  [120, 1, 1, (n % 256).toUInt8, (n / 256).toUInt8, ((65535 - n) % 256).toUInt8,
      ((65535 - n) / 256).toUInt8] ++ b ++
    [(sums.2 / 256).toUInt8, (sums.2 % 256).toUInt8, (sums.1 / 256).toUInt8,
      (sums.1 % 256).toUInt8]

/-- The header check of the example zlib: two bytes, the compression method 8, a
window of at most 32K, the check bits, and no preset dictionary. -/
def exampleNewReader (st : Stream) : Option santa.Error :=
  match st.data with
  | cmf :: flg :: _ =>
    if cmf.toNat % 16 ≠ 8 ∨ cmf.toNat / 16 > 7 ∨ (cmf.toNat * 256 + flg.toNat) % 31 ≠ 0 then
      some "zlib: invalid header"
    else if flg.toNat / 32 % 2 = 1 then some "zlib: invalid dictionary"
    else none
  | _ => some (st.err.getD "unexpected EOF")

/-- The inflation of the example zlib: the bytes of a stream of one stored
block, ending without error when the checksum that follows them is right and
with the checksum error when it is not; an error for any other stream. -/
def exampleRead (st : Stream) : Stream :=
  match st.data with
  | _ :: _ :: b :: l0 :: l1 :: n0 :: n1 :: rest =>
    let n := l0.toNat + 256 * l1.toNat
    let sums := adler32 (rest.take n)
    if b = 1 ∧ n + (n0.toNat + 256 * n1.toNat) = 65535 ∧ n + 4 ≤ rest.length then
      if (rest.drop n).take 4 = [(sums.2 / 256).toUInt8, (sums.2 % 256).toUInt8,
          (sums.1 / 256).toUInt8, (sums.1 % 256).toUInt8] then
        ⟨rest.take n, none⟩
      else ⟨rest.take n, some "zlib: invalid checksum"⟩
    else ⟨[], some "flate: corrupt input"⟩
  | _ => ⟨[], some "unexpected EOF"⟩

/-- Reads a JSON string without escapes after its opening quote: its characters,
and what follows the closing quote. -/
def exampleString : List Char → Option (List Char × List Char)
  | [] => none
  | c :: rest =>
    if c = Char.ofNat 34 then some ([], rest)
    else if c = Char.ofNat 92 then none
    else
      match exampleString rest with
      | some (cs, rest1) => some (c :: cs, rest1)
      | none => none

/-- Reads the members of a JSON object after its opening brace, each a string
key with a string value, at most `fuel` of them. -/
def exampleMembers : Nat → List Char → Option (List (String × String))
  | 0, _ => none
  | fuel + 1, cs =>
    match cs with
    | q :: rest =>
      if q ≠ Char.ofNat 34 then none
      else
        match exampleString rest with
        | some (k, c1 :: q1 :: rest1) =>
          if c1 ≠ Char.ofNat 58 ∨ q1 ≠ Char.ofNat 34 then none
          else
            match exampleString rest1 with
            | some (v, [c2]) =>
              if c2 = Char.ofNat 125 then some [(String.mk k, String.mk v)] else none
            | some (v, c2 :: rest2) =>
              if c2 = Char.ofNat 44 then
                (exampleMembers fuel rest2).map (fun ms => (String.mk k, String.mk v) :: ms)
              else none
            | _ => none
        | _ => none
    | [] => none

/-- Reads a JSON object whose members are strings without escapes, with no
white space, as the list of its members; `none` for any other text. -/
def exampleObject (payload : Bytes) : Option (List (String × String)) :=
  match payload.map (fun b => Char.ofNat b.toNat) with
  | c :: rest =>
    if c ≠ Char.ofNat 123 then none
    else if rest = [Char.ofNat 125] then some []
    else exampleMembers rest.length rest
  | [] => none

/-- The value of the member `key`, the empty string when there is none. -/
def exampleMember (ms : List (String × String)) (key : String) : String :=
  ((ms.find? (fun m => m.1 = key)).map (fun m => m.2)).getD ""

/-- The example `json.Unmarshal` into the struct of `decodeRuleRequest`. -/
def exampleUnmarshal (payload : Bytes) : ruleRequestBody × Option santa.Error :=
  match exampleObject payload with
  | some ms => (⟨exampleMember ms "cursor", exampleMember ms "machine_id"⟩, none)
  | none => (default, some "invalid character")

/-- The rendering of `%q` used with the example library: the token between
double quotes. -/
def exampleQuote (s : String) : String := "\"" ++ s ++ "\""

/-- The member of the example scanner for one member of the object: the two
enumeration fields go to their `UnmarshalText`, the members `serial_num`,
`hostname`, `primary_user` and `machine_id` are stored, any other is skipped. -/
def exampleJsonMember (kv : String × String) : JsonMember :=
  if kv.1 = "client_mode" then .client_mode kv.2
  else if kv.1 = "override_file_access_action" then .override_file_access_action kv.2
  else if kv.1 = "serial_num" then .plain (fun p => { p with SerialNumber := kv.2 }) none
  else if kv.1 = "hostname" then .plain (fun p => { p with Hostname := kv.2 }) none
  else if kv.1 = "primary_user" then .plain (fun p => { p with PrimaryUser := kv.2 }) none
  else if kv.1 = "machine_id" then .plain (fun p => { p with MachineID := kv.2 }) none
  else .plain (fun p => p) none

/-- The example scanner: when the bytes of the stream are an object, its members
in their order, whatever error ends the stream after them; otherwise the
error of the stream, or a syntax error. -/
def exampleScan (st : Stream) : JsonScan :=
  match exampleObject st.data with
  | some ms => ⟨none, ms.map exampleJsonMember⟩
  | none => ⟨some (st.err.getD "invalid character"), []⟩

/-- The example `Decode` into a `PreflightPayload`: `json.Decode` over the
example scanner. -/
def exampleDecode (st : Stream) : santa.PreflightPayload × Option santa.Error :=
  json.Decode exampleQuote exampleScan st

/-- The example library. -/
def exampleLibrary : Library where
  zlib_NewReader := exampleNewReader
  zlib_Read := exampleRead
  json_Unmarshal := exampleUnmarshal
  json_Decode := exampleDecode

/-- A `machineIDFromRequest` for requests whose route is the list of the path
segments: the last segment, and an error when there is none. -/
def exampleMachineID (route : List String) : String × Option santa.Error :=
  match route.getLast? with
  | some id => (id, none)
  | none => ("", some "request URL missing id parameter")

/-- The rule-download body of the specification's scenario. -/
def exampleRuleBody : Bytes := ascii "\x7b\"cursor\":\"c1\",\"machine_id\":\"m1\"\x7d"

/-- The preflight body used to evaluate `decodePreflightRequest`: a payload
whose machine id is `m2`. -/
def examplePreflightBody : Bytes :=
  ascii "\x7b\"machine_id\":\"m2\",\"hostname\":\"host-a\"\x7d"

/-- The stored zlib stream of `examplePreflightBody` with the last byte of its
checksum replaced: the header and the block are right, the trailer is wrong. -/
def exampleBadTrailer : Bytes := (exampleDeflate examplePreflightBody).dropLast ++ [0]

/-! ## The logging decorator -/

/-- A value in a log record. -/
inductive LogValue where
  | str (s : String)
  | err (e : Option santa.Error)
  | duration (d : Int)
  | payload (p : santa.PreflightPayload)
  | int (n : Int)
  | bool (b : Bool)
  | clientMode (c : santa.ClientMode)
deriving DecidableEq, Repr

/-- A log record: the key/value pairs handed to `mw.logger.Log`, or the entries
of the map handed to `json.Marshal`, in the order of the source. -/
abbrev LogRecord := List (String × LogValue)

/-- What the clock gives during one decorated call: `time.Since(begin)` for the
logger's record, and `time.Now().Format(time.RFC3339)` and
`time.Since(begin).Milliseconds()` for the JSON line. -/
structure Clock where
  took : Int
  timestamp : String
  took_ms : Int
deriving DecidableEq, Repr, Inhabited

/-- Where the decorator writes: the records handed to `mw.logger.Log` and the
maps printed as JSON lines on `os.Stdout`. -/
structure LogSink where
  logger : List LogRecord
  stdout : List LogRecord
deriving DecidableEq, Repr, Inhabited

/-- The struct `logmw`: the wrapped service `next`; what its `logger` receives is
kept in the `LogSink`. -/
structure logmw (Ctx σ : Type) where
  next : Service Ctx σ

/-- The method `(mw logmw) Preflight(ctx, machineID, p)`.  The deferred function
runs after `mw.next.Preflight` has returned and reads the named results.  The
error of `mw.logger.Log` is dropped.  The JSON line is printed when
`json.Marshal` of the map succeeds, that is when `p.ClientMode`, the one value
of the map that marshals through `MarshalText`, encodes. -/
def logmw.Preflight {Ctx σ : Type} (mw : logmw Ctx σ) (clk : Clock) (ctx : Ctx)
    (machineID : String) (p : santa.PreflightPayload) (s : σ × LogSink) :
    (Option santa.Preflight × Option santa.Error) × (σ × LogSink) :=
  match mw.next.Preflight ctx machineID p s.1 with
  | ((pf, err), s1) =>
    let record : LogRecord :=
      [("method", .str "Preflight"),
        ("machine_id", .str machineID),
        ("preflight_payload", .payload p),
        ("err", .err err),
        ("took", .duration clk.took)]
    let preflightLog : LogRecord :=
      [("event_type", .str "preflight"),
        ("machine_id", .str machineID),
        ("hostname", .str p.Hostname),
        ("os_version", .str p.OSVersion),
        ("os_build", .str p.OSBuild),
        ("model_identifier", .str p.ModelIdentifier),
        ("santa_version", .str p.SantaVersion),
        ("client_mode", .clientMode p.ClientMode),
        ("serial_number", .str p.SerialNumber),
        ("primary_user", .str p.PrimaryUser),
        ("binary_rule_count", .int p.BinaryRuleCount),
        ("certificate_rule_count", .int p.CertificateRuleCount),
        ("compiler_rule_count", .int p.CompilerRuleCount),
        ("transitive_rule_count", .int p.TransitiveRuleCount),
        ("teamid_rule_count", .int p.TeamIDRuleCount),
        ("signingid_rule_count", .int p.SigningIDRuleCount),
        ("cdhash_rule_count", .int p.CdHashRuleCount),
        ("request_clean_sync", .bool p.RequestCleanSync),
        ("timestamp", .str clk.timestamp),
        ("took_ms", .int clk.took_ms)]
    let preflightLog : LogRecord :=
      match err with
      | some e => preflightLog ++ [("error", .str e)]
      | none => preflightLog
    let stdout :=
      if (santa.ClientMode.MarshalText p.ClientMode).2 = none then s.2.stdout ++ [preflightLog]
      else s.2.stdout
    ((pf, err), (s1, ⟨s.2.logger ++ [record], stdout⟩))

/-- The method `(mw logmw) RuleDownload(ctx, machineID)`. -/
def logmw.RuleDownload {Ctx σ : Type} (mw : logmw Ctx σ) (clk : Clock) (ctx : Ctx)
    (machineID : String) (s : σ × LogSink) :
    (List santa.Rule × Option santa.Error) × (σ × LogSink) :=
  match mw.next.RuleDownload ctx machineID s.1 with
  | ((rules, err), s1) =>
    let record : LogRecord :=
      [("method", .str "RuleDownload"),
        ("machine_id", .str machineID),
        ("err", .err err),
        ("took", .duration clk.took)]
    ((rules, err), (s1, ⟨s.2.logger ++ [record], s.2.stdout⟩))

/-- The keys of the timing fields of the log records. -/
def timingKeys : List String := ["took", "timestamp", "took_ms"]

/-- A log record without its timing fields. -/
def LogRecord.untimed (r : LogRecord) : LogRecord :=
  r.filter (fun kv => !(timingKeys.contains kv.1))

/-- What has been logged, without the timing fields. -/
def LogSink.untimed (k : LogSink) : LogSink :=
  ⟨k.logger.map LogRecord.untimed, k.stdout.map LogRecord.untimed⟩

end moroz

namespace santa

/-- C1: for each of the five enumerations and every defined value `v`,
`MarshalText v` succeeds with a token `t`, and `UnmarshalText` of `t` succeeds and
stores exactly `v`, whatever the receiver held before: decode (encode v) = v. -/
theorem decode_encode_roundtrip (quote : String → String) :
    (∀ v ∈ [RuleTypeUnknown, Binary, Certificate, TeamID, SigningID, CdHash],
      ∃ t, RuleType.MarshalText v = (some t, none) ∧
        ∀ r, RuleType.UnmarshalText quote r t = (v, none)) ∧
    (∀ v ∈ [PolicyUnknown, Allowlist, AllowlistCompiler, Blocklist, SilentBlocklist,
        Remove, Cel],
      ∃ t, Policy.MarshalText v = (some t, none) ∧
        ∀ p, Policy.UnmarshalText quote p t = (v, none)) ∧
    (∀ v ∈ [Monitor, Lockdown],
      ∃ t, ClientMode.MarshalText v = (some t, none) ∧
        ∀ c, ClientMode.UnmarshalText quote c t = (v, none)) ∧
    (∀ v ∈ [SyncTypeUnspecified, SyncTypeNormal, SyncTypeClean, SyncTypeCleanAll],
      ∃ t, SyncType.MarshalText v = (some t, none) ∧
        ∀ s, SyncType.UnmarshalText quote s t = (v, none)) ∧
    (∀ v ∈ [FileAccessActionUnspecified, FileAccessActionNone, FileAccessActionAuditOnly,
        FileAccessActionDisable],
      ∃ t, FileAccessAction.MarshalText v = (some t, none) ∧
        ∀ a, FileAccessAction.UnmarshalText quote a t = (v, none)) := by
  refine ⟨?_, ?_, ?_, ?_, ?_⟩ <;> intro v hv <;> fin_cases hv <;>
    exact ⟨_, rfl, fun _ => rfl⟩

/-- The round trip of C1 at the value `AllowlistCompiler` of `Policy`. -/
theorem decode_encode_roundtrip_witness :
    AllowlistCompiler ∈ [PolicyUnknown, Allowlist, AllowlistCompiler, Blocklist,
        SilentBlocklist, Remove, Cel] ∧
    ∃ t, Policy.MarshalText AllowlistCompiler = (some t, none) ∧
      ∀ p, Policy.UnmarshalText (fun s => "\"" ++ s ++ "\"") p t = (AllowlistCompiler, none) :=
  ⟨by decide, (decode_encode_roundtrip (fun s => "\"" ++ s ++ "\"")).2.1 AllowlistCompiler
    (by decide)⟩

/-- C2: each of the four deprecated `Policy` alias tokens decodes successfully, and
to the same value as its canonical equivalent: `WHITELIST` as `ALLOWLIST`,
`WHITELIST_COMPILER` as `ALLOWLIST_COMPILER`, `BLACKLIST` as `BLOCKLIST`,
`SILENT_BLACKLIST` as `SILENT_BLOCKLIST`, whatever the receivers held before. -/
theorem policy_alias_decodes_as_canonical (quote : String → String) (p q : Policy) :
    (Policy.UnmarshalText quote p "WHITELIST" = (Allowlist, none) ∧
      Policy.UnmarshalText quote q "ALLOWLIST" = (Allowlist, none)) ∧
    (Policy.UnmarshalText quote p "WHITELIST_COMPILER" = (AllowlistCompiler, none) ∧
      Policy.UnmarshalText quote q "ALLOWLIST_COMPILER" = (AllowlistCompiler, none)) ∧
    (Policy.UnmarshalText quote p "BLACKLIST" = (Blocklist, none) ∧
      Policy.UnmarshalText quote q "BLOCKLIST" = (Blocklist, none)) ∧
    (Policy.UnmarshalText quote p "SILENT_BLACKLIST" = (SilentBlocklist, none) ∧
      Policy.UnmarshalText quote q "SILENT_BLOCKLIST" = (SilentBlocklist, none)) :=
  ⟨⟨rfl, rfl⟩, ⟨rfl, rfl⟩, ⟨rfl, rfl⟩, ⟨rfl, rfl⟩⟩

/-- A token emitted by `Policy.MarshalText` is one of the seven modern tokens. -/
theorem policy_marshal_token_mem (p : Policy) (t : String)
    (h : (Policy.MarshalText p).1 = some t) :
    t ∈ ["POLICY_UNKNOWN", "ALLOWLIST", "ALLOWLIST_COMPILER", "BLOCKLIST",
      "SILENT_BLOCKLIST", "REMOVE", "CEL"] := by
  unfold Policy.MarshalText at h
  split_ifs at h <;> simp_all

/-- C3: the deprecated `Policy` aliases have no reverse encode path: the value
decoded from an alias re-encodes as the modern token (`BLACKLIST` as `BLOCKLIST`,
and so on), and for no `Policy` value whatsoever does `MarshalText` emit one of
the four alias tokens. -/
theorem policy_alias_reencodes_modern (quote : String → String) (p : Policy) :
    Policy.MarshalText (Policy.UnmarshalText quote p "WHITELIST").1
      = (some "ALLOWLIST", none) ∧
    Policy.MarshalText (Policy.UnmarshalText quote p "WHITELIST_COMPILER").1
      = (some "ALLOWLIST_COMPILER", none) ∧
    Policy.MarshalText (Policy.UnmarshalText quote p "BLACKLIST").1
      = (some "BLOCKLIST", none) ∧
    Policy.MarshalText (Policy.UnmarshalText quote p "SILENT_BLACKLIST").1
      = (some "SILENT_BLOCKLIST", none) ∧
    ∀ a ∈ ["WHITELIST", "WHITELIST_COMPILER", "BLACKLIST", "SILENT_BLACKLIST"],
      (Policy.MarshalText p).1 ≠ some a := by
  refine ⟨rfl, rfl, rfl, rfl, ?_⟩
  intro a ha h
  have hm := policy_marshal_token_mem p a h
  fin_cases ha <;> simp at hm

/-- The claim C3 at a receiver holding `Cel`: `BLACKLIST` re-encodes as `BLOCKLIST`
and `Cel` does not encode as `BLACKLIST`. -/
theorem policy_alias_reencodes_modern_witness :
    Policy.MarshalText (Policy.UnmarshalText (fun s => "\"" ++ s ++ "\"") Cel "BLACKLIST").1
      = (some "BLOCKLIST", none) ∧
    (Policy.MarshalText Cel).1 ≠ some "BLACKLIST" :=
  ⟨(policy_alias_reencodes_modern (fun s => "\"" ++ s ++ "\"") Cel).2.2.1,
   (policy_alias_reencodes_modern (fun s => "\"" ++ s ++ "\"") Cel).2.2.2.2 "BLACKLIST"
     (by decide)⟩


/-- C4: for each of the five enumerations, `UnmarshalText` of a token that is not
one of its accepted tokens returns an error and leaves the receiver as it was
(nothing is defaulted); the message names the field (`rule_type`, `policy`,
`client_mode`, `sync_type`, `override_file_access_action`) and ends with the
offending token in quoted form. -/
theorem unmarshal_unknown_token_fails (quote : String → String) (t : String) :
    (t ∉ RuleType.tokens → ∀ r, RuleType.UnmarshalText quote r t
      = (r, some ("unknown " ++ "rule_type" ++ " value " ++ quote t))) ∧
    (t ∉ Policy.tokens → ∀ p, Policy.UnmarshalText quote p t
      = (p, some ("unknown " ++ "policy" ++ " value " ++ quote t))) ∧
    (t ∉ ClientMode.tokens → ∀ c, ClientMode.UnmarshalText quote c t
      = (c, some ("unknown " ++ "client_mode" ++ " value " ++ quote t))) ∧
    (t ∉ SyncType.tokens → ∀ s, SyncType.UnmarshalText quote s t
      = (s, some ("unknown " ++ "sync_type" ++ " value " ++ quote t))) ∧
    (t ∉ FileAccessAction.tokens → ∀ a, FileAccessAction.UnmarshalText quote a t
      = (a, some ("unknown " ++ "override_file_access_action" ++ " value " ++ quote t))) := by
  refine ⟨?_, ?_, ?_, ?_, ?_⟩ <;> intro h r
  · simp only [RuleType.tokens, List.mem_cons, List.mem_singleton, not_or, List.mem_nil_iff,
      not_false_eq_true, and_true, or_false] at h
    unfold RuleType.UnmarshalText
    split <;> first | (exfalso; simp_all; done) | rfl
  · simp only [Policy.tokens, List.mem_cons, List.mem_singleton, not_or, List.mem_nil_iff,
      not_false_eq_true, and_true, or_false] at h
    unfold Policy.UnmarshalText
    split <;> first | (exfalso; simp_all; done) | rfl
  · simp only [ClientMode.tokens, List.mem_cons, List.mem_singleton, not_or, List.mem_nil_iff,
      not_false_eq_true, and_true, or_false] at h
    unfold ClientMode.UnmarshalText
    split <;> first | (exfalso; simp_all; done) | rfl
  · simp only [SyncType.tokens, List.mem_cons, List.mem_singleton, not_or, List.mem_nil_iff,
      not_false_eq_true, and_true, or_false] at h
    unfold SyncType.UnmarshalText
    split <;> first | (exfalso; simp_all; done) | rfl
  · simp only [FileAccessAction.tokens, List.mem_cons, List.mem_singleton, not_or,
      List.mem_nil_iff, not_false_eq_true, and_true, or_false] at h
    unfold FileAccessAction.UnmarshalText
    split <;> first | (exfalso; simp_all; done) | rfl


/-- The claim C4 at the lower-case token `binary`, which `RuleType` rejects with
the message `unknown rule_type value "binary"`, the receiver keeping `Binary`. -/
theorem unmarshal_unknown_token_fails_witness :
    "binary" ∉ RuleType.tokens ∧
    RuleType.UnmarshalText (fun s => "\"" ++ s ++ "\"") Binary "binary"
      = (Binary, some "unknown rule_type value \"binary\"") :=
  ⟨by decide,
   (unmarshal_unknown_token_fails (fun s => "\"" ++ s ++ "\"") "binary").1 (by decide) Binary⟩

/-- C5: for each of the five enumerations and every integer value of the
underlying type, negative ones included, `MarshalText` returns an error exactly
when the value is outside the defined range (`RuleType` 0..5, `Policy` 0..6,
`ClientMode` 0..1, `SyncType` 0..3, `FileAccessAction` 0..3), and then it returns
no token. -/
theorem marshal_error_iff_out_of_range (x : Int) :
    (((RuleType.MarshalText ⟨x⟩).2 ≠ none ↔ (x < 0 ∨ 5 < x)) ∧
      ((x < 0 ∨ 5 < x) → (RuleType.MarshalText ⟨x⟩).1 = none)) ∧
    (((Policy.MarshalText ⟨x⟩).2 ≠ none ↔ (x < 0 ∨ 6 < x)) ∧
      ((x < 0 ∨ 6 < x) → (Policy.MarshalText ⟨x⟩).1 = none)) ∧
    (((ClientMode.MarshalText ⟨x⟩).2 ≠ none ↔ (x < 0 ∨ 1 < x)) ∧
      ((x < 0 ∨ 1 < x) → (ClientMode.MarshalText ⟨x⟩).1 = none)) ∧
    (((SyncType.MarshalText ⟨x⟩).2 ≠ none ↔ (x < 0 ∨ 3 < x)) ∧
      ((x < 0 ∨ 3 < x) → (SyncType.MarshalText ⟨x⟩).1 = none)) ∧
    (((FileAccessAction.MarshalText ⟨x⟩).2 ≠ none ↔ (x < 0 ∨ 3 < x)) ∧
      ((x < 0 ∨ 3 < x) → (FileAccessAction.MarshalText ⟨x⟩).1 = none)) := by
  refine ⟨⟨?_, ?_⟩, ⟨?_, ?_⟩, ⟨?_, ?_⟩, ⟨?_, ?_⟩, ⟨?_, ?_⟩⟩
  all_goals
    simp only [RuleType.MarshalText, Policy.MarshalText, ClientMode.MarshalText,
      SyncType.MarshalText, FileAccessAction.MarshalText, RuleType.mk.injEq, Policy.mk.injEq,
      ClientMode.mk.injEq, SyncType.mk.injEq, FileAccessAction.mk.injEq]
    split_ifs <;> simp <;> omega

/-- The claim C5 at the negative value `-1` of `Policy`: an error and no token. -/
theorem marshal_error_iff_out_of_range_witness :
    ((-1 : Int) < 0 ∨ 6 < (-1 : Int)) ∧
    (Policy.MarshalText ⟨-1⟩).2 ≠ none ∧ (Policy.MarshalText ⟨-1⟩).1 = none :=
  ⟨by decide, (marshal_error_iff_out_of_range (-1)).2.1.1.mpr (by decide),
    (marshal_error_iff_out_of_range (-1)).2.1.2 (by decide)⟩


/-- Decoding a `RuleType` succeeds exactly on the listed tokens. -/
theorem ruleType_unmarshal_ok_iff (quote : String → String) (r : RuleType) (t : String) :
    (RuleType.UnmarshalText quote r t).2 = none ↔ t ∈ RuleType.tokens := by
  unfold RuleType.UnmarshalText RuleType.tokens
  split <;> simp_all

/-- Decoding a `Policy` succeeds exactly on the listed tokens. -/
theorem policy_unmarshal_ok_iff (quote : String → String) (p : Policy) (t : String) :
    (Policy.UnmarshalText quote p t).2 = none ↔ t ∈ Policy.tokens := by
  unfold Policy.UnmarshalText Policy.tokens
  split <;> simp_all

/-- Decoding a `ClientMode` succeeds exactly on the listed tokens. -/
theorem clientMode_unmarshal_ok_iff (quote : String → String) (c : ClientMode)
    (t : String) : (ClientMode.UnmarshalText quote c t).2 = none ↔ t ∈ ClientMode.tokens := by
  unfold ClientMode.UnmarshalText ClientMode.tokens
  split <;> simp_all

/-- Decoding a `SyncType` succeeds exactly on the listed tokens. -/
theorem syncType_unmarshal_ok_iff (quote : String → String) (s : SyncType) (t : String) :
    (SyncType.UnmarshalText quote s t).2 = none ↔ t ∈ SyncType.tokens := by
  unfold SyncType.UnmarshalText SyncType.tokens
  split <;> simp_all

/-- Decoding a `FileAccessAction` succeeds exactly on the listed tokens. -/
theorem fileAccessAction_unmarshal_ok_iff (quote : String → String)
    (a : FileAccessAction) (t : String) :
    (FileAccessAction.UnmarshalText quote a t).2 = none ↔ t ∈ FileAccessAction.tokens := by
  unfold FileAccessAction.UnmarshalText FileAccessAction.tokens
  split <;> simp_all

/-- No two listed `RuleType` tokens are spelled alike up to case. -/
theorem ruleType_tokens_spelling :
    ∀ t ∈ RuleType.tokens, ∀ u ∈ RuleType.tokens, sameSpelling t u → t = u := by
  decide

/-- No two listed `Policy` tokens are spelled alike up to case. -/
theorem policy_tokens_spelling :
    ∀ t ∈ Policy.tokens, ∀ u ∈ Policy.tokens, sameSpelling t u → t = u := by
  decide

/-- No two listed `ClientMode` tokens are spelled alike up to case. -/
theorem clientMode_tokens_spelling :
    ∀ t ∈ ClientMode.tokens, ∀ u ∈ ClientMode.tokens, sameSpelling t u → t = u := by
  decide

/-- No two listed `SyncType` tokens are spelled alike up to case. -/
theorem syncType_tokens_spelling :
    ∀ t ∈ SyncType.tokens, ∀ u ∈ SyncType.tokens, sameSpelling t u → t = u := by
  decide

/-- C6: for each enumeration `UnmarshalText` succeeds exactly when the token is,
byte for byte, one of the tokens the wire-enumeration table lists for it.
`RuleType`, `Policy` and `ClientMode` reject the empty token; `SyncType` decodes
the empty token and `SYNC_TYPE_UNSPECIFIED` as Unspecified; for these four a
token that spells a listed token `u` in another case is rejected; and
`FileAccessAction` accepts the empty token, its four upper-case tokens, the
lower-case tokens `none`, `auditonly`, `disable`, and nothing else. -/
theorem unmarshal_succeeds_iff_listed (quote : String → String) (t : String) :
    (∀ r, (RuleType.UnmarshalText quote r t).2 = none ↔ t ∈ RuleType.tokens) ∧
    (∀ p, (Policy.UnmarshalText quote p t).2 = none ↔ t ∈ Policy.tokens) ∧
    (∀ c, (ClientMode.UnmarshalText quote c t).2 = none ↔ t ∈ ClientMode.tokens) ∧
    (∀ s, (SyncType.UnmarshalText quote s t).2 = none ↔ t ∈ SyncType.tokens) ∧
    (∀ a, (FileAccessAction.UnmarshalText quote a t).2 = none ↔
      t ∈ ["", "FILE_ACCESS_ACTION_UNSPECIFIED", "NONE", "AUDIT_ONLY", "DISABLE",
        "none", "auditonly", "disable"]) ∧
    ((∀ r, (RuleType.UnmarshalText quote r "").2 ≠ none) ∧
      (∀ p, (Policy.UnmarshalText quote p "").2 ≠ none) ∧
      (∀ c, (ClientMode.UnmarshalText quote c "").2 ≠ none)) ∧
    ((∀ s, SyncType.UnmarshalText quote s "" = (SyncTypeUnspecified, none)) ∧
      (∀ s, SyncType.UnmarshalText quote s "SYNC_TYPE_UNSPECIFIED"
        = (SyncTypeUnspecified, none))) ∧
    ((∀ u ∈ RuleType.tokens, sameSpelling t u → t ≠ u →
        ∀ r, (RuleType.UnmarshalText quote r t).2 ≠ none) ∧
      (∀ u ∈ Policy.tokens, sameSpelling t u → t ≠ u →
        ∀ p, (Policy.UnmarshalText quote p t).2 ≠ none) ∧
      (∀ u ∈ ClientMode.tokens, sameSpelling t u → t ≠ u →
        ∀ c, (ClientMode.UnmarshalText quote c t).2 ≠ none) ∧
      (∀ u ∈ SyncType.tokens, sameSpelling t u → t ≠ u →
        ∀ s, (SyncType.UnmarshalText quote s t).2 ≠ none)) := by
  refine ⟨fun r => ruleType_unmarshal_ok_iff quote r t,
    fun p => policy_unmarshal_ok_iff quote p t,
    fun c => clientMode_unmarshal_ok_iff quote c t,
    fun s => syncType_unmarshal_ok_iff quote s t,
    fun a => fileAccessAction_unmarshal_ok_iff quote a t,
    ⟨fun r => ?_, fun p => ?_, fun c => ?_⟩, ⟨fun _ => rfl, fun _ => rfl⟩,
    ⟨?_, ?_, ?_, ?_⟩⟩
  · rw [Ne, ruleType_unmarshal_ok_iff]; decide
  · rw [Ne, policy_unmarshal_ok_iff]; decide
  · rw [Ne, clientMode_unmarshal_ok_iff]; decide
  · intro u hu hs hne r
    rw [Ne, ruleType_unmarshal_ok_iff]
    exact fun ht => hne (ruleType_tokens_spelling t ht u hu hs)
  · intro u hu hs hne p
    rw [Ne, policy_unmarshal_ok_iff]
    exact fun ht => hne (policy_tokens_spelling t ht u hu hs)
  · intro u hu hs hne c
    rw [Ne, clientMode_unmarshal_ok_iff]
    exact fun ht => hne (clientMode_tokens_spelling t ht u hu hs)
  · intro u hu hs hne s
    rw [Ne, syncType_unmarshal_ok_iff]
    exact fun ht => hne (syncType_tokens_spelling t ht u hu hs)

/-- The claim C6 at the mixed-case token `Lockdown`: it spells the listed
`ClientMode` token `LOCKDOWN` in another case and is rejected, while the
lower-case `auditonly` is accepted by `FileAccessAction`. -/
theorem unmarshal_succeeds_iff_listed_witness :
    ("LOCKDOWN" ∈ ClientMode.tokens ∧ sameSpelling "Lockdown" "LOCKDOWN" ∧
      "Lockdown" ≠ "LOCKDOWN") ∧
    (ClientMode.UnmarshalText (fun s => "\"" ++ s ++ "\"") Monitor "Lockdown").2 ≠ none ∧
    (FileAccessAction.UnmarshalText (fun s => "\"" ++ s ++ "\"")
      FileAccessActionUnspecified "auditonly").2 = none :=
  ⟨by decide,
   (unmarshal_succeeds_iff_listed (fun s => "\"" ++ s ++ "\"") "Lockdown").2.2.2.2.2.2.2.2.2.1
     "LOCKDOWN" (by decide) (by decide) (by decide) Monitor,
   ((unmarshal_succeeds_iff_listed (fun s => "\"" ++ s ++ "\"") "auditonly").2.2.2.2.1
     FileAccessActionUnspecified).mpr (by decide)⟩


/-- C7, as stated, fails: `FileAccessAction.MarshalText` does not emit `NONE`,
`AUDIT_ONLY`, `DISABLE` for None, AuditOnly, Disable, and the upper-case token
`NONE`, decoded and encoded again, does not come back as `NONE`. -/
theorem fileAccessAction_marshal_upper_case_counterexample :
    FileAccessAction.MarshalText FileAccessActionNone ≠ (some "NONE", none) ∧
    FileAccessAction.MarshalText FileAccessActionAuditOnly ≠ (some "AUDIT_ONLY", none) ∧
    FileAccessAction.MarshalText FileAccessActionDisable ≠ (some "DISABLE", none) ∧
    (FileAccessAction.UnmarshalText (fun s => "\"" ++ s ++ "\"")
      FileAccessActionUnspecified "NONE").2 = none ∧
    FileAccessAction.MarshalText (FileAccessAction.UnmarshalText (fun s => "\"" ++ s ++ "\"")
      FileAccessActionUnspecified "NONE").1 ≠ (some "NONE", none) := by
  decide

/-- A token emitted by `FileAccessAction.MarshalText` is one of the four it can
return. -/
theorem fileAccessAction_marshal_token_mem (a : FileAccessAction) (t : String)
    (h : (FileAccessAction.MarshalText a).1 = some t) :
    t ∈ ["FILE_ACCESS_ACTION_UNSPECIFIED", "none", "auditonly", "disable"] := by
  unfold FileAccessAction.MarshalText at h
  split_ifs at h <;> simp_all

/-- C7, amended: `FileAccessAction.MarshalText` emits
`FILE_ACCESS_ACTION_UNSPECIFIED`, `none`, `auditonly` and `disable` for Unspecified,
None, AuditOnly and Disable; the empty token and the upper-case tokens `NONE`,
`AUDIT_ONLY`, `DISABLE` are decode-only (no value encodes to them); decoding a
token that `MarshalText` emits and encoding it again returns the same token,
while `NONE`, `AUDIT_ONLY`, `DISABLE` come back as `none`, `auditonly`, `disable`. -/
theorem fileAccessAction_marshal_lower_case (quote : String → String)
    (a : FileAccessAction) :
    (FileAccessAction.MarshalText FileAccessActionUnspecified
        = (some "FILE_ACCESS_ACTION_UNSPECIFIED", none) ∧
      FileAccessAction.MarshalText FileAccessActionNone = (some "none", none) ∧
      FileAccessAction.MarshalText FileAccessActionAuditOnly = (some "auditonly", none) ∧
      FileAccessAction.MarshalText FileAccessActionDisable = (some "disable", none)) ∧
    (∀ u ∈ ["", "NONE", "AUDIT_ONLY", "DISABLE"],
      (FileAccessAction.MarshalText a).1 ≠ some u) ∧
    (∀ t ∈ ["FILE_ACCESS_ACTION_UNSPECIFIED", "none", "auditonly", "disable"],
      FileAccessAction.MarshalText (FileAccessAction.UnmarshalText quote a t).1
        = (some t, none)) ∧
    (FileAccessAction.MarshalText (FileAccessAction.UnmarshalText quote a "NONE").1
        = (some "none", none) ∧
      FileAccessAction.MarshalText (FileAccessAction.UnmarshalText quote a "AUDIT_ONLY").1
        = (some "auditonly", none) ∧
      FileAccessAction.MarshalText (FileAccessAction.UnmarshalText quote a "DISABLE").1
        = (some "disable", none)) := by
  refine ⟨⟨rfl, rfl, rfl, rfl⟩, ?_, ?_, ⟨rfl, rfl, rfl⟩⟩
  · intro u hu h
    have hm := fileAccessAction_marshal_token_mem a u h
    fin_cases hu <;> simp at hm
  · intro t ht
    fin_cases ht <;> rfl

/-- The amended C7 at a receiver holding Disable: `auditonly` survives decoding
and encoding, and Disable does not encode as `DISABLE`. -/
theorem fileAccessAction_marshal_lower_case_witness :
    FileAccessAction.MarshalText (FileAccessAction.UnmarshalText (fun s => "\"" ++ s ++ "\"")
      FileAccessActionDisable "auditonly").1 = (some "auditonly", none) ∧
    (FileAccessAction.MarshalText FileAccessActionDisable).1 ≠ some "DISABLE" :=
  ⟨(fileAccessAction_marshal_lower_case (fun s => "\"" ++ s ++ "\"")
      FileAccessActionDisable).2.2.1 "auditonly" (by decide),
   (fileAccessAction_marshal_lower_case (fun s => "\"" ++ s ++ "\"")
      FileAccessActionDisable).2.1 "DISABLE" (by decide)⟩

/-- A token that `RuleType.MarshalText` emits for `v` decodes to `v`. -/
theorem ruleType_unmarshal_of_marshal (quote : String → String) (v : RuleType)
    (t : String) (h : (RuleType.MarshalText v).1 = some t) (r : RuleType) :
    (RuleType.UnmarshalText quote r t).1 = v := by
  unfold RuleType.MarshalText at h
  split_ifs at h <;> simp only [Option.some.injEq, reduceCtorEq] at h <;> subst_vars <;> rfl

/-- A token that `Policy.MarshalText` emits for `v` decodes to `v`. -/
theorem policy_unmarshal_of_marshal (quote : String → String) (v : Policy)
    (t : String) (h : (Policy.MarshalText v).1 = some t) (p : Policy) :
    (Policy.UnmarshalText quote p t).1 = v := by
  unfold Policy.MarshalText at h
  split_ifs at h <;> simp only [Option.some.injEq, reduceCtorEq] at h <;> subst_vars <;> rfl

/-- A token that `ClientMode.MarshalText` emits for `v` decodes to `v`. -/
theorem clientMode_unmarshal_of_marshal (quote : String → String) (v : ClientMode)
    (t : String) (h : (ClientMode.MarshalText v).1 = some t) (c : ClientMode) :
    (ClientMode.UnmarshalText quote c t).1 = v := by
  unfold ClientMode.MarshalText at h
  split_ifs at h <;> simp only [Option.some.injEq, reduceCtorEq] at h <;> subst_vars <;> rfl

/-- A token that `SyncType.MarshalText` emits for `v` decodes to `v`. -/
theorem syncType_unmarshal_of_marshal (quote : String → String) (v : SyncType)
    (t : String) (h : (SyncType.MarshalText v).1 = some t) (s : SyncType) :
    (SyncType.UnmarshalText quote s t).1 = v := by
  unfold SyncType.MarshalText at h
  split_ifs at h <;> simp only [Option.some.injEq, reduceCtorEq] at h <;> subst_vars <;> rfl

/-- C8: for `RuleType`, `Policy`, `ClientMode` and `SyncType`, `MarshalText` maps
the defined values, in declaration order from 0, to the canonical tokens of the
wire-enumeration table, and two values that encode to the same token are the
same value. -/
theorem marshal_canonical_tokens :
    ([RuleTypeUnknown, Binary, Certificate, TeamID, SigningID, CdHash].map
        (fun v => (v.val, RuleType.MarshalText v))
      = [(0, some "RULETYPE_UNKNOWN", none), (1, some "BINARY", none),
          (2, some "CERTIFICATE", none), (3, some "TEAMID", none),
          (4, some "SIGNINGID", none), (5, some "CDHASH", none)]) ∧
    ([PolicyUnknown, Allowlist, AllowlistCompiler, Blocklist, SilentBlocklist, Remove,
        Cel].map (fun v => (v.val, Policy.MarshalText v))
      = [(0, some "POLICY_UNKNOWN", none), (1, some "ALLOWLIST", none),
          (2, some "ALLOWLIST_COMPILER", none), (3, some "BLOCKLIST", none),
          (4, some "SILENT_BLOCKLIST", none), (5, some "REMOVE", none),
          (6, some "CEL", none)]) ∧
    ([Monitor, Lockdown].map (fun v => (v.val, ClientMode.MarshalText v))
      = [(0, some "MONITOR", none), (1, some "LOCKDOWN", none)]) ∧
    ([SyncTypeUnspecified, SyncTypeNormal, SyncTypeClean, SyncTypeCleanAll].map
        (fun v => (v.val, SyncType.MarshalText v))
      = [(0, some "SYNC_TYPE_UNSPECIFIED", none), (1, some "NORMAL", none),
          (2, some "CLEAN", none), (3, some "CLEAN_ALL", none)]) ∧
    (∀ (a b : RuleType) (t : String), (RuleType.MarshalText a).1 = some t →
      (RuleType.MarshalText b).1 = some t → a = b) ∧
    (∀ (a b : Policy) (t : String), (Policy.MarshalText a).1 = some t →
      (Policy.MarshalText b).1 = some t → a = b) ∧
    (∀ (a b : ClientMode) (t : String), (ClientMode.MarshalText a).1 = some t →
      (ClientMode.MarshalText b).1 = some t → a = b) ∧
    (∀ (a b : SyncType) (t : String), (SyncType.MarshalText a).1 = some t →
      (SyncType.MarshalText b).1 = some t → a = b) := by
  refine ⟨by decide, by decide, by decide, by decide, ?_, ?_, ?_, ?_⟩
  · intro a b t ha hb
    exact (ruleType_unmarshal_of_marshal id a t ha a).symm.trans
      (ruleType_unmarshal_of_marshal id b t hb a)
  · intro a b t ha hb
    exact (policy_unmarshal_of_marshal id a t ha a).symm.trans
      (policy_unmarshal_of_marshal id b t hb a)
  · intro a b t ha hb
    exact (clientMode_unmarshal_of_marshal id a t ha a).symm.trans
      (clientMode_unmarshal_of_marshal id b t hb a)
  · intro a b t ha hb
    exact (syncType_unmarshal_of_marshal id a t ha a).symm.trans
      (syncType_unmarshal_of_marshal id b t hb a)

/-- The claim C8 at the `Policy` values Blocklist and SilentBlocklist, which
encode to different tokens. -/
theorem marshal_canonical_tokens_witness :
    (Policy.MarshalText Blocklist).1 = some "BLOCKLIST" ∧
    ((Policy.MarshalText SilentBlocklist).1 = some "BLOCKLIST" →
      Blocklist = SilentBlocklist) :=
  ⟨by decide, marshal_canonical_tokens.2.2.2.2.2.1 Blocklist SilentBlocklist "BLOCKLIST"
    (by decide)⟩

end santa

namespace moroz

/-- C9: whenever the store's lookup of `machineID` succeeds with the Config `c`,
`SantaService.config` returns `c` with no error, after that one lookup; the result
is not the global document when the store holds a different one under `global`. -/
theorem config_returns_machine_document {Ctx σ : Type} (svc : SantaService Ctx σ)
    (ctx : Ctx) (machineID : String) (s s1 : σ) (c : santa.Config)
    (h : svc.repo.Config ctx machineID s = ((c, none), s1)) :
    svc.config ctx machineID s = ((c, none), s1) ∧
    ∀ s2, (svc.repo.Config ctx "global" s2).1.1 ≠ c →
      (svc.config ctx machineID s).1.1 ≠ (svc.repo.Config ctx "global" s2).1.1 := by
  have hc : svc.config ctx machineID s = ((c, none), s1) := by
    unfold SantaService.config
    rw [h]
  refine ⟨hc, fun s2 hg => ?_⟩
  rw [hc]
  exact fun heq => hg heq.symm

/-- The claim C9 on the example store: `known-machine` resolves to its own
document after one lookup, and that document is not the global one. -/
theorem config_returns_machine_document_witness :
    SantaService.config ⟨exampleStore⟩ () "known-machine" 0 = ((knownDocument, none), 1) ∧
    (SantaService.config ⟨exampleStore⟩ () "known-machine" 0).1.1
      ≠ (exampleStore.Config () "global" 1).1.1 :=
  ⟨(config_returns_machine_document ⟨exampleStore⟩ () "known-machine" 0 1 knownDocument
      (by decide)).1,
   (config_returns_machine_document ⟨exampleStore⟩ () "known-machine" 0 1 knownDocument
      (by decide)).2 1 (by decide)⟩

/-- C10: whenever the store's lookup of `machineID` fails, for whatever reason,
`SantaService.config` returns exactly the result of the lookup of the reserved
key `global` made next: the global Config with no error when that lookup
succeeds, and its error, not the machine-specific one, when it fails.  Hence
`config` fails exactly when both lookups fail. -/
theorem config_falls_back_to_global {Ctx σ : Type} (svc : SantaService Ctx σ)
    (ctx : Ctx) (machineID : String) (s : σ) :
    (∀ c e s1, svc.repo.Config ctx machineID s = ((c, some e), s1) →
      svc.config ctx machineID s = svc.repo.Config ctx "global" s1) ∧
    ((svc.config ctx machineID s).1.2 ≠ none ↔
      ((svc.repo.Config ctx machineID s).1.2 ≠ none ∧
        (svc.repo.Config ctx "global" (svc.repo.Config ctx machineID s).2).1.2 ≠ none)) := by
  constructor
  · intro c e s1 h
    unfold SantaService.config
    rw [h]
  · unfold SantaService.config
    rcases h : svc.repo.Config ctx machineID s with ⟨⟨c, _ | e⟩, s1⟩ <;> simp

/-- The claim C10 on the example store and on the empty store: an unknown machine
resolves to the global document without error after two lookups, and with no
document at all the error surfaced is the one of the `global` lookup. -/
theorem config_falls_back_to_global_witness :
    (SantaService.config ⟨exampleStore⟩ () "unknown-machine" 0
      = exampleStore.Config () "global" 1 ∧
      (exampleStore.Config () "global" 1).1.2 = none) ∧
    SantaService.config ⟨emptyStore⟩ () "unknown-machine" 0
      = ((default, some "no config for global"), 2) :=
  ⟨⟨(config_falls_back_to_global ⟨exampleStore⟩ () "unknown-machine" 0).1 default
      "no config for unknown-machine" 1 (by decide), by decide⟩,
   (config_falls_back_to_global ⟨emptyStore⟩ () "unknown-machine" 0).1 default
      "no config for unknown-machine" 1 (by decide)⟩

end moroz

namespace moroz

/-- C11: `SantaService.Preflight` fails exactly when config resolution fails, and
then returns that error and no Preflight; otherwise it returns exactly the
Preflight section of the resolved Config.  The result does not depend on the
payload, and for a machine whose own lookup fails while `global` resolves, the
returned client mode is the one of the global Preflight. -/
theorem preflight_returns_resolved_section {Ctx σ : Type} (svc : SantaService Ctx σ)
    (ctx : Ctx) (machineID : String) (p : santa.PreflightPayload) (s : σ) :
    ((svc.Preflight ctx machineID p s).1.2 ≠ none ↔ (svc.config ctx machineID s).1.2 ≠ none) ∧
    (∀ e, (svc.config ctx machineID s).1.2 = some e →
      (svc.Preflight ctx machineID p s).1 = (none, some e)) ∧
    ((svc.config ctx machineID s).1.2 = none →
      (svc.Preflight ctx machineID p s).1
        = (some (svc.config ctx machineID s).1.1.Preflight, none)) ∧
    (svc.Preflight ctx machineID p s).2 = (svc.config ctx machineID s).2 ∧
    (∀ q, svc.Preflight ctx machineID q s = svc.Preflight ctx machineID p s) ∧
    (∀ c e s1 g s2, svc.repo.Config ctx machineID s = ((c, some e), s1) →
      svc.repo.Config ctx "global" s1 = ((g, none), s2) →
      (svc.Preflight ctx machineID p s).1.1.map (fun pre => pre.ClientMode)
        = some g.Preflight.ClientMode) := by
  refine ⟨?_, ?_, ?_, ?_, fun q => rfl, ?_⟩
  · unfold SantaService.Preflight
    rcases svc.config ctx machineID s with ⟨⟨c, _ | e⟩, s1⟩ <;> simp
  · intro e h
    unfold SantaService.Preflight
    rcases hc : svc.config ctx machineID s with ⟨⟨c, _ | e1⟩, s1⟩ <;> simp_all
  · intro h
    unfold SantaService.Preflight
    rcases hc : svc.config ctx machineID s with ⟨⟨c, _ | e1⟩, s1⟩ <;> simp_all
  · unfold SantaService.Preflight
    rcases svc.config ctx machineID s with ⟨⟨c, _ | e⟩, s1⟩ <;> rfl
  · intro c e s1 g s2 h1 h2
    have hc : svc.config ctx machineID s = ((g, none), s2) := by
      unfold SantaService.config
      rw [h1]
      exact h2
    unfold SantaService.Preflight
    rw [hc]
    rfl

/-- The claim C11 on the example store: an unknown machine gets the Preflight of
the global document, in Lockdown mode, and a store without documents gives the
error of the `global` lookup and no Preflight. -/
theorem preflight_returns_resolved_section_witness :
    (SantaService.Preflight ⟨exampleStore⟩ () "unknown-machine" default 0).1
      = (some globalDocument.Preflight, none) ∧
    (SantaService.Preflight ⟨exampleStore⟩ () "unknown-machine" default 0).1.1.map
      (fun pre => pre.ClientMode) = some santa.Lockdown ∧
    (SantaService.Preflight ⟨emptyStore⟩ () "unknown-machine" default 0).1
      = (none, some "no config for global") :=
  ⟨(preflight_returns_resolved_section ⟨exampleStore⟩ () "unknown-machine" default 0).2.2.1
      (by decide),
   (preflight_returns_resolved_section ⟨exampleStore⟩ () "unknown-machine" default
      0).2.2.2.2.2 default "no config for unknown-machine" 1 globalDocument 2 (by decide)
      (by decide),
   (preflight_returns_resolved_section ⟨emptyStore⟩ () "unknown-machine" default 0).2.1
      "no config for global" (by decide)⟩

/-- C12: when the config of the request's machine resolves to `c`, the
rule-download endpoint over `SantaService.RuleDownload` responds with all of
`c.Rules` in their order, whatever `c.BatchSize` is, with the empty cursor and no
error; the response does not depend on the request's cursor; and for a machine
whose own lookup fails while `global` resolves, the rules are the global ones. -/
theorem rule_download_returns_all_rules {Ctx σ : Type} (svc : SantaService Ctx σ)
    (ctx : Ctx) (request : ruleRequest) (s : σ) :
    (∀ c s1, svc.config ctx request.MachineID s = ((c, none), s1) →
      makeRuleDownloadEndpoint svc.asService ctx request s
        = ((⟨c.Rules, "", none⟩, none), s1)) ∧
    (∀ cursor, makeRuleDownloadEndpoint svc.asService ctx ⟨request.MachineID, cursor⟩ s
      = makeRuleDownloadEndpoint svc.asService ctx request s) ∧
    (∀ c e s1 g s2, svc.repo.Config ctx request.MachineID s = ((c, some e), s1) →
      svc.repo.Config ctx "global" s1 = ((g, none), s2) →
      makeRuleDownloadEndpoint svc.asService ctx request s
        = ((⟨g.Rules, "", none⟩, none), s2)) := by
  have key : ∀ c s1, svc.config ctx request.MachineID s = ((c, none), s1) →
      makeRuleDownloadEndpoint svc.asService ctx request s
        = ((⟨c.Rules, "", none⟩, none), s1) := by
    intro c s1 h
    simp only [makeRuleDownloadEndpoint, SantaService.asService, SantaService.RuleDownload, h]
  refine ⟨key, fun _ => rfl, ?_⟩
  intro c e s1 g s2 h1 h2
  apply key
  unfold SantaService.config
  rw [h1]
  exact h2

/-- The claim C12 on the example store: `known-machine` with the cursor `c1` gets
its one rule and the empty cursor, and an unknown machine gets the global rules. -/
theorem rule_download_returns_all_rules_witness :
    makeRuleDownloadEndpoint (SantaService.asService ⟨exampleStore⟩) ()
        ⟨"known-machine", "c1"⟩ 0
      = ((⟨knownDocument.Rules, "", none⟩, none), 1) ∧
    makeRuleDownloadEndpoint (SantaService.asService ⟨exampleStore⟩) ()
        ⟨"unknown-machine", ""⟩ 0
      = ((⟨globalDocument.Rules, "", none⟩, none), 2) :=
  ⟨(rule_download_returns_all_rules ⟨exampleStore⟩ () ⟨"known-machine", "c1"⟩ 0).1
      knownDocument 1 (by decide),
   (rule_download_returns_all_rules ⟨exampleStore⟩ () ⟨"unknown-machine", ""⟩ 0).2.2
      default "no config for unknown-machine" 1 globalDocument 2 (by decide) (by decide)⟩

/-- C13: for every service and every request, the endpoints built by
`makePreflightEndpoint` and `makeRuleDownloadEndpoint` return a nil
transport-level error, and `Failed` of the response is the error of the service
call: that error when the call failed, nil when it succeeded.  The service is
called once, on the request's machine id. -/
theorem endpoints_carry_error_in_response {Ctx σ : Type} (svc : Service Ctx σ) (ctx : Ctx)
    (preq : preflightRequest) (rreq : ruleRequest) (s : σ) :
    ((makePreflightEndpoint svc ctx preq s).1.2 = none ∧
      (makePreflightEndpoint svc ctx preq s).1.1.Failed
        = (svc.Preflight ctx preq.MachineID preq.payload s).1.2 ∧
      (makePreflightEndpoint svc ctx preq s).2
        = (svc.Preflight ctx preq.MachineID preq.payload s).2) ∧
    ((makeRuleDownloadEndpoint svc ctx rreq s).1.2 = none ∧
      (makeRuleDownloadEndpoint svc ctx rreq s).1.1.Failed
        = (svc.RuleDownload ctx rreq.MachineID s).1.2 ∧
      (makeRuleDownloadEndpoint svc ctx rreq s).2
        = (svc.RuleDownload ctx rreq.MachineID s).2) := by
  constructor
  · rcases h : svc.Preflight ctx preq.MachineID preq.payload s with ⟨⟨pre, _ | e⟩, s1⟩ <;>
      simp [makePreflightEndpoint, h, preflightResponse.Failed]
  · rcases h : svc.RuleDownload ctx rreq.MachineID s with ⟨⟨rules, _ | e⟩, s1⟩ <;>
      simp [makeRuleDownloadEndpoint, h, rulesResponse.Failed]

end moroz

namespace moroz

/-- The request that `decodeRuleRequest` returns for a non-empty body, in terms
of the payload `p` that is parsed: the decompressed bytes when the body is a
zlib stream that inflates without error, the body itself otherwise. -/
theorem decodeRuleRequest_payload {π : Type} (lib : Library)
    (mid : π → String × Option santa.Error) (r : Request π) (id : String) (p : Bytes)
    (hmid : mid r.route = (id, none)) (hb : r.Body.stream.data ≠ [])
    (hp : (lib.zlib_NewReader (bytes.NewReader r.Body.stream.data) = none ∧
        lib.zlib_Read (bytes.NewReader r.Body.stream.data) = ⟨p, none⟩) ∨
      ((lib.zlib_NewReader (bytes.NewReader r.Body.stream.data) ≠ none ∨
        (lib.zlib_Read (bytes.NewReader r.Body.stream.data)).err ≠ none) ∧
        p = r.Body.stream.data)) :
    (decodeRuleRequest lib mid r).1
      = (some (match lib.json_Unmarshal p with
          | (body, none) => ⟨if body.MachineID ≠ "" then body.MachineID else id, body.Cursor⟩
          | (_, some _) => ⟨id, ""⟩), none) := by
  have hlen : ¬ (io.ReadAll r.Body.stream).1.length = 0 := by
    simpa [io.ReadAll, List.length_eq_zero] using hb
  have hpay : (match lib.zlib_NewReader (bytes.NewReader r.Body.stream.data) with
      | some _ => r.Body.stream.data
      | none =>
        match io.ReadAll (lib.zlib_Read (bytes.NewReader r.Body.stream.data)) with
        | (decompressed, none) => decompressed
        | (_, some _) => r.Body.stream.data) = p := by
    rcases hp with ⟨h1, h2⟩ | ⟨h1 | h1, h2⟩
    · rw [h1, h2]; rfl
    · cases h : lib.zlib_NewReader (bytes.NewReader r.Body.stream.data) with
      | none => exact absurd h h1
      | some e => exact h2.symm
    · cases h : lib.zlib_NewReader (bytes.NewReader r.Body.stream.data) with
      | some e => exact h2.symm
      | none =>
        cases h3 : (lib.zlib_Read (bytes.NewReader r.Body.stream.data)).err with
        | none => exact absurd h3 h1
        | some e => simp only [io.ReadAll, h3]; exact h2.symm
  unfold decodeRuleRequest
  simp only [hmid, if_neg hlen]
  have hio : (io.ReadAll r.Body.stream).1 = r.Body.stream.data := rfl
  simp only [hio, hpay]
  rcases lib.json_Unmarshal p with ⟨⟨c, m⟩, _ | e⟩
  · by_cases hc : c = "" <;> by_cases hm : m = "" <;> simp [hc, hm]
  · rfl

/-- The result of `decodeRuleRequest` when the machine id cannot be derived: that
error, no request, and a body that has been closed without being read. -/
theorem decodeRuleRequest_no_id {π : Type} (lib : Library)
    (mid : π → String × Option santa.Error) (r : Request π) (e : santa.Error)
    (h : (mid r.route).2 = some e) :
    decodeRuleRequest lib mid r = ((none, some e), ⟨r.Body.Close, []⟩) := by
  unfold decodeRuleRequest
  rcases hm : mid r.route with ⟨id, _ | e1⟩
  · rw [hm] at h; cases h
  · rw [hm] at h; cases h; rfl

/-- The result of `decodeRuleRequest` on an empty body: the defaults. -/
theorem decodeRuleRequest_empty {π : Type} (lib : Library)
    (mid : π → String × Option santa.Error) (r : Request π) (id : String)
    (hmid : mid r.route = (id, none)) (hb : r.Body.stream.data = []) :
    (decodeRuleRequest lib mid r).1 = (some ⟨id, ""⟩, none) := by
  unfold decodeRuleRequest
  simp [hmid, io.ReadAll, hb]

/-- C14: compression of the rule-download body is transparent.  For a library
whose zlib opens `z` and inflates it to `j` without error, where `j` is not
itself a zlib stream (its header is rejected or its inflation fails), the
requests with the bodies `z` and `j` decode to the same result.  And a
non-empty body that is not a valid zlib stream is parsed as it is, without
error: the request is read off `json_Unmarshal` of the raw bytes. -/
theorem rule_request_compression_transparent {π : Type} (lib : Library)
    (mid : π → String × Option santa.Error) (rj rz : Request π) :
    (rz.route = rj.route → rj.Body.stream.data ≠ [] → rz.Body.stream.data ≠ [] →
      lib.zlib_NewReader (bytes.NewReader rz.Body.stream.data) = none →
      lib.zlib_Read (bytes.NewReader rz.Body.stream.data) = ⟨rj.Body.stream.data, none⟩ →
      (lib.zlib_NewReader (bytes.NewReader rj.Body.stream.data) ≠ none ∨
        (lib.zlib_Read (bytes.NewReader rj.Body.stream.data)).err ≠ none) →
      (decodeRuleRequest lib mid rz).1 = (decodeRuleRequest lib mid rj).1) ∧
    (∀ id, mid rj.route = (id, none) → rj.Body.stream.data ≠ [] →
      (lib.zlib_NewReader (bytes.NewReader rj.Body.stream.data) ≠ none ∨
        (lib.zlib_Read (bytes.NewReader rj.Body.stream.data)).err ≠ none) →
      (decodeRuleRequest lib mid rj).1
        = (some (match lib.json_Unmarshal rj.Body.stream.data with
            | (body, none) =>
              ⟨if body.MachineID ≠ "" then body.MachineID else id, body.Cursor⟩
            | (_, some _) => ⟨id, ""⟩), none)) := by
  constructor
  · intro hroute hj hz hopen hread hnot
    rcases hm : mid rj.route with ⟨id, _ | e⟩
    · rw [decodeRuleRequest_payload lib mid rz id rj.Body.stream.data (hroute ▸ hm) hz
        (Or.inl ⟨hopen, hread⟩),
        decodeRuleRequest_payload lib mid rj id rj.Body.stream.data hm hj
        (Or.inr ⟨hnot, rfl⟩)]
    · rw [decodeRuleRequest_no_id lib mid rj e (by rw [hm]),
        decodeRuleRequest_no_id lib mid rz e (by rw [hroute, hm])]
  · intro id hm hj hnot
    exact decodeRuleRequest_payload lib mid rj id rj.Body.stream.data hm hj (Or.inr ⟨hnot, rfl⟩)

/-- The claim C14 on the example library, for the body
`{"cursor":"c1","machine_id":"m1"}` sent to the path of machine `m0`: the stored
zlib stream of the body and the body itself decode alike, to the machine id
`m1` and the cursor `c1`. -/
theorem rule_request_compression_transparent_witness :
    (decodeRuleRequest exampleLibrary exampleMachineID
        ⟨["ruledownload", "m0"], ⟨⟨exampleDeflate exampleRuleBody, none⟩, false, false⟩⟩).1
      = (decodeRuleRequest exampleLibrary exampleMachineID
        ⟨["ruledownload", "m0"], ⟨⟨exampleRuleBody, none⟩, false, false⟩⟩).1 ∧
    (decodeRuleRequest exampleLibrary exampleMachineID
        ⟨["ruledownload", "m0"], ⟨⟨exampleRuleBody, none⟩, false, false⟩⟩).1
      = (some ⟨"m1", "c1"⟩, none) :=
  ⟨(rule_request_compression_transparent exampleLibrary exampleMachineID
      ⟨["ruledownload", "m0"], ⟨⟨exampleRuleBody, none⟩, false, false⟩⟩
      ⟨["ruledownload", "m0"], ⟨⟨exampleDeflate exampleRuleBody, none⟩, false, false⟩⟩).1
      rfl (by decide) (by decide) (by decide) (by decide) (by decide),
   (rule_request_compression_transparent exampleLibrary exampleMachineID
      ⟨["ruledownload", "m0"], ⟨⟨exampleRuleBody, none⟩, false, false⟩⟩
      ⟨["ruledownload", "m0"], ⟨⟨exampleRuleBody, none⟩, false, false⟩⟩).2
      "m0" (by decide) (by decide) (by decide)⟩

/-- C15: for a transport identity `id` and a non-empty body whose payload `p`
(the inflated bytes of a zlib body, the body itself otherwise) parses as JSON
with the cursor `c` and the machine id `m`, `decodeRuleRequest` returns the
machine id `m` when `m` is not empty and `id` when it is, and the cursor `c`. -/
theorem rule_request_body_overrides_identity {π : Type} (lib : Library)
    (mid : π → String × Option santa.Error) (r : Request π) (id c m : String) (p : Bytes)
    (hmid : mid r.route = (id, none)) (hb : r.Body.stream.data ≠ [])
    (hp : (lib.zlib_NewReader (bytes.NewReader r.Body.stream.data) = none ∧
        lib.zlib_Read (bytes.NewReader r.Body.stream.data) = ⟨p, none⟩) ∨
      ((lib.zlib_NewReader (bytes.NewReader r.Body.stream.data) ≠ none ∨
        (lib.zlib_Read (bytes.NewReader r.Body.stream.data)).err ≠ none) ∧
        p = r.Body.stream.data))
    (hjson : lib.json_Unmarshal p = (⟨c, m⟩, none)) :
    (decodeRuleRequest lib mid r).1 = (some ⟨if m ≠ "" then m else id, c⟩, none) ∧
    (m ≠ "" → (decodeRuleRequest lib mid r).1 = (some ⟨m, c⟩, none)) ∧
    (m = "" → (decodeRuleRequest lib mid r).1 = (some ⟨id, c⟩, none)) := by
  have h : (decodeRuleRequest lib mid r).1 = (some ⟨if m ≠ "" then m else id, c⟩, none) := by
    rw [decodeRuleRequest_payload lib mid r id p hmid hb hp, hjson]
  refine ⟨h, fun hm => ?_, fun hm => ?_⟩
  · rw [h, if_pos hm]
  · rw [h, if_neg (not_not.mpr hm)]

/-- The claim C15 on the example library: the body's machine id `m1` replaces the
`m0` of the path, and a body with a cursor only keeps `m0`. -/
theorem rule_request_body_overrides_identity_witness :
    (decodeRuleRequest exampleLibrary exampleMachineID
        ⟨["ruledownload", "m0"], ⟨⟨exampleRuleBody, none⟩, false, false⟩⟩).1
      = (some ⟨"m1", "c1"⟩, none) ∧
    (decodeRuleRequest exampleLibrary exampleMachineID
        ⟨["ruledownload", "m0"],
          ⟨⟨exampleDeflate (ascii "\x7b\"cursor\":\"c2\"\x7d"), none⟩, false, false⟩⟩).1
      = (some ⟨"m0", "c2"⟩, none) :=
  ⟨(rule_request_body_overrides_identity exampleLibrary exampleMachineID
      ⟨["ruledownload", "m0"], ⟨⟨exampleRuleBody, none⟩, false, false⟩⟩ "m0" "c1" "m1"
      exampleRuleBody (by decide) (by decide) (Or.inr ⟨by decide, rfl⟩) (by decide)).2.1
      (by decide),
   (rule_request_body_overrides_identity exampleLibrary exampleMachineID
      ⟨["ruledownload", "m0"],
        ⟨⟨exampleDeflate (ascii "\x7b\"cursor\":\"c2\"\x7d"), none⟩, false, false⟩⟩
      "m0" "c2" "" (ascii "\x7b\"cursor\":\"c2\"\x7d") (by decide) (by decide)
      (Or.inl ⟨by decide, by decide⟩) (by decide)).2.2 rfl⟩

/-- When the machine id is derived, `decodeRuleRequest` returns a request and no
error, whatever the body. -/
theorem decodeRuleRequest_succeeds {π : Type} (lib : Library)
    (mid : π → String × Option santa.Error) (r : Request π) (id : String)
    (hmid : mid r.route = (id, none)) :
    ∃ req, (decodeRuleRequest lib mid r).1 = (some req, none) := by
  unfold decodeRuleRequest
  simp only [hmid]
  split_ifs
  · exact ⟨_, rfl⟩
  · exact ⟨_, rfl⟩

/-- C16: `decodeRuleRequest` returns an error exactly when `machineIDFromRequest`
fails, and then it returns that error and no request, the body closed but not
read.  Otherwise it returns a request and no error for every body; for an empty
body, and for a body whose payload `p` (inflated or raw) does not parse as JSON,
the request is the default: the transport identity and the empty cursor. -/
theorem rule_request_fails_iff_no_identity {π : Type} (lib : Library)
    (mid : π → String × Option santa.Error) (r : Request π) :
    ((decodeRuleRequest lib mid r).1.2 ≠ none ↔ (mid r.route).2 ≠ none) ∧
    (∀ e, (mid r.route).2 = some e →
      (decodeRuleRequest lib mid r).1 = (none, some e) ∧
      (decodeRuleRequest lib mid r).2.Body.read = r.Body.read ∧
      (decodeRuleRequest lib mid r).2.zlibReaders = []) ∧
    (∀ id, mid r.route = (id, none) →
      ∃ req, (decodeRuleRequest lib mid r).1 = (some req, none)) ∧
    (∀ id, mid r.route = (id, none) → r.Body.stream.data = [] →
      (decodeRuleRequest lib mid r).1 = (some ⟨id, ""⟩, none)) ∧
    (∀ id p, mid r.route = (id, none) → r.Body.stream.data ≠ [] →
      ((lib.zlib_NewReader (bytes.NewReader r.Body.stream.data) = none ∧
          lib.zlib_Read (bytes.NewReader r.Body.stream.data) = ⟨p, none⟩) ∨
        ((lib.zlib_NewReader (bytes.NewReader r.Body.stream.data) ≠ none ∨
          (lib.zlib_Read (bytes.NewReader r.Body.stream.data)).err ≠ none) ∧
          p = r.Body.stream.data)) →
      (lib.json_Unmarshal p).2 ≠ none →
      (decodeRuleRequest lib mid r).1 = (some ⟨id, ""⟩, none)) := by
  refine ⟨?_, ?_, fun id hmid => decodeRuleRequest_succeeds lib mid r id hmid,
    fun id hmid hb => decodeRuleRequest_empty lib mid r id hmid hb, ?_⟩
  · rcases hm : mid r.route with ⟨id, _ | e⟩
    · obtain ⟨req, hreq⟩ := decodeRuleRequest_succeeds lib mid r id hm
      simp [hreq]
    · simp [decodeRuleRequest_no_id lib mid r e (by rw [hm])]
  · intro e he
    rw [decodeRuleRequest_no_id lib mid r e he]
    exact ⟨rfl, rfl, rfl⟩
  · intro id p hmid hb hp hjson
    rw [decodeRuleRequest_payload lib mid r id p hmid hb hp]
    rcases hu : lib.json_Unmarshal p with ⟨body, _ | e⟩
    · rw [hu] at hjson; exact absurd rfl hjson
    · rfl

/-- The claim C16 on the example library: a route without segments fails with
the error of `machineIDFromRequest`; the body `not json` sent to machine `m0` is
no zlib stream and no JSON, and decodes to the defaults. -/
theorem rule_request_fails_iff_no_identity_witness :
    (decodeRuleRequest exampleLibrary exampleMachineID
        ⟨[], ⟨⟨exampleRuleBody, none⟩, false, false⟩⟩).1
      = (none, some "request URL missing id parameter") ∧
    (decodeRuleRequest exampleLibrary exampleMachineID
        ⟨["ruledownload", "m0"], ⟨⟨ascii "not json", none⟩, false, false⟩⟩).1
      = (some ⟨"m0", ""⟩, none) :=
  ⟨((rule_request_fails_iff_no_identity exampleLibrary exampleMachineID
      ⟨[], ⟨⟨exampleRuleBody, none⟩, false, false⟩⟩).2.1
      "request URL missing id parameter" (by decide)).1,
   (rule_request_fails_iff_no_identity exampleLibrary exampleMachineID
      ⟨["ruledownload", "m0"], ⟨⟨ascii "not json", none⟩, false, false⟩⟩).2.2.2.2
      "m0" (ascii "not json") (by decide) (by decide) (Or.inr ⟨by decide, rfl⟩) (by decide)⟩

/-- C17, as stated, fails: for the transport identity `m1` an empty body decodes
to the cursor `""`, not to `c1`, so it does not give the request that the raw
and the compressed body give. -/
theorem empty_rule_body_has_no_cursor_counterexample :
    (decodeRuleRequest exampleLibrary exampleMachineID
        ⟨["ruledownload", "m1"], ⟨⟨[], none⟩, false, false⟩⟩).1
      = (some ⟨"m1", ""⟩, none) ∧
    (decodeRuleRequest exampleLibrary exampleMachineID
        ⟨["ruledownload", "m1"], ⟨⟨[], none⟩, false, false⟩⟩).1
      ≠ (some ⟨"m1", "c1"⟩, none) ∧
    (decodeRuleRequest exampleLibrary exampleMachineID
        ⟨["ruledownload", "m1"], ⟨⟨exampleRuleBody, none⟩, false, false⟩⟩).1
      = (some ⟨"m1", "c1"⟩, none) := by
  decide

/-- C17, amended: for the transport identity `id` and a library that reads
the scenario (the raw body `j` is no zlib stream and parses as the cursor `c1`
and the machine id `m1`, the compressed body `z` inflates to `j`), the raw and
the compressed body both decode to the machine id `m1` and the cursor `c1`,
and the empty body decodes to the machine id `id` and the empty cursor. -/
theorem rule_request_three_bodies {π : Type} (lib : Library)
    (mid : π → String × Option santa.Error) (route : π) (id : String) (j z : Bytes)
    (hmid : mid route = (id, none)) (hj : j ≠ []) (hz : z ≠ [])
    (hnot : lib.zlib_NewReader (bytes.NewReader j) ≠ none ∨
      (lib.zlib_Read (bytes.NewReader j)).err ≠ none)
    (hopen : lib.zlib_NewReader (bytes.NewReader z) = none)
    (hread : lib.zlib_Read (bytes.NewReader z) = ⟨j, none⟩)
    (hjson : lib.json_Unmarshal j = (⟨"c1", "m1"⟩, none)) (e : Option santa.Error)
    (rd cl : Bool) :
    (decodeRuleRequest lib mid ⟨route, ⟨⟨j, e⟩, rd, cl⟩⟩).1 = (some ⟨"m1", "c1"⟩, none) ∧
    (decodeRuleRequest lib mid ⟨route, ⟨⟨z, e⟩, rd, cl⟩⟩).1 = (some ⟨"m1", "c1"⟩, none) ∧
    (decodeRuleRequest lib mid ⟨route, ⟨⟨[], e⟩, rd, cl⟩⟩).1 = (some ⟨id, ""⟩, none) := by
  refine ⟨?_, ?_, ?_⟩
  · rw [decodeRuleRequest_payload lib mid ⟨route, ⟨⟨j, e⟩, rd, cl⟩⟩ id j hmid hj
      (Or.inr ⟨hnot, rfl⟩), hjson]
    rfl
  · rw [decodeRuleRequest_payload lib mid ⟨route, ⟨⟨z, e⟩, rd, cl⟩⟩ id j hmid hz
      (Or.inl ⟨hopen, hread⟩), hjson]
    rfl
  · exact decodeRuleRequest_empty lib mid ⟨route, ⟨⟨[], e⟩, rd, cl⟩⟩ id hmid rfl

/-- The amended C17 on the example library, for the transport identity `m1`:
the raw body and its stored zlib stream give the cursor `c1`, the empty body the
empty cursor. -/
theorem rule_request_three_bodies_witness :
    (decodeRuleRequest exampleLibrary exampleMachineID
        ⟨["ruledownload", "m1"], ⟨⟨exampleRuleBody, none⟩, false, false⟩⟩).1
      = (some ⟨"m1", "c1"⟩, none) ∧
    (decodeRuleRequest exampleLibrary exampleMachineID
        ⟨["ruledownload", "m1"], ⟨⟨exampleDeflate exampleRuleBody, none⟩, false, false⟩⟩).1
      = (some ⟨"m1", "c1"⟩, none) ∧
    (decodeRuleRequest exampleLibrary exampleMachineID
        ⟨["ruledownload", "m1"], ⟨⟨[], none⟩, false, false⟩⟩).1
      = (some ⟨"m1", ""⟩, none) :=
  rule_request_three_bodies exampleLibrary exampleMachineID ["ruledownload", "m1"] "m1"
    exampleRuleBody (exampleDeflate exampleRuleBody) (by decide) (by decide) (by decide)
    (by decide) (by decide) (by decide) (by decide) none false false

/-- C20, as stated, fails: a preflight body whose payload carries the machine id
`m2`, sent to the path of machine `m1`, decodes to a request for `m1`; the `m2`
is only in the payload. -/
theorem preflight_body_does_not_override_counterexample :
    (decodePreflightRequest exampleLibrary exampleMachineID
        ⟨["preflight", "m1"], ⟨⟨exampleDeflate examplePreflightBody, none⟩, false, false⟩⟩).1.2
      = none ∧
    (decodePreflightRequest exampleLibrary exampleMachineID
        ⟨["preflight", "m1"], ⟨⟨exampleDeflate examplePreflightBody, none⟩, false,
          false⟩⟩).1.1.map (fun req => (req.MachineID, req.payload.MachineID))
      = some ("m1", "m2") := by
  decide

/-- C20, amended: when the body's header is accepted, the machine id `id` is
derived from the transport and the payload `p` decodes, `decodePreflightRequest`
returns the request with the machine identity `id` and the payload `p`, whether
the machine id of `p` is empty or not; every request it returns has the
transport-derived identity. -/
theorem preflight_request_keeps_transport_identity {π : Type} (lib : Library)
    (mid : π → String × Option santa.Error) (r : Request π) :
    (∀ id p, lib.zlib_NewReader r.Body.stream = none → mid r.route = (id, none) →
      lib.json_Decode (lib.zlib_Read r.Body.stream) = (p, none) →
      (decodePreflightRequest lib mid r).1 = (some ⟨id, p⟩, none)) ∧
    (∀ req, (decodePreflightRequest lib mid r).1.1 = some req →
      req.MachineID = (mid r.route).1 ∧
      req.payload = (lib.json_Decode (lib.zlib_Read r.Body.stream)).1) := by
  constructor
  · intro id p hopen hmid hdec
    simp only [decodePreflightRequest, hopen, hmid, hdec]
  · intro req h
    unfold decodePreflightRequest at h
    rcases ho : lib.zlib_NewReader r.Body.stream with _ | e
    · rcases hm : mid r.route with ⟨id, _ | e1⟩
      · rcases hd : lib.json_Decode (lib.zlib_Read r.Body.stream) with ⟨p, _ | e2⟩
        · simp only [ho, hm, hd, Option.some.injEq] at h
          subst h
          exact ⟨rfl, rfl⟩
        · simp [ho, hm, hd] at h
      · simp [ho, hm] at h
    · simp [ho] at h

/-- The amended C20 on the example library: the payload with the machine id `m2`
sent to the path of `m1` gives a request for `m1` that carries the payload. -/
theorem preflight_request_keeps_transport_identity_witness :
    (decodePreflightRequest exampleLibrary exampleMachineID
        ⟨["preflight", "m1"], ⟨⟨exampleDeflate examplePreflightBody, none⟩, false, false⟩⟩).1
      = (some ⟨"m1", (exampleDecode ⟨examplePreflightBody, none⟩).1⟩, none) ∧
    (exampleDecode ⟨examplePreflightBody, none⟩).1.MachineID = "m2" :=
  ⟨(preflight_request_keeps_transport_identity exampleLibrary exampleMachineID
      ⟨["preflight", "m1"], ⟨⟨exampleDeflate examplePreflightBody, none⟩, false, false⟩⟩).1
      "m1" (exampleDecode ⟨examplePreflightBody, none⟩).1 (by decide) (by decide) (by decide),
    by decide⟩

/-- C18: the logging decorator is transparent.  For every wrapped service,
machine id and payload, `logmw.Preflight` and `logmw.RuleDownload` return exactly
the result and the error of the wrapped operation called with the same
arguments, and leave the wrapped service in the state that this one call leaves
it in, on the success and on the failure path alike. -/
theorem logging_decorator_transparent {Ctx σ : Type} (mw : logmw Ctx σ) (clk : Clock)
    (ctx : Ctx) (machineID : String) (p : santa.PreflightPayload) (s : σ) (k : LogSink) :
    ((mw.Preflight clk ctx machineID p (s, k)).1 = (mw.next.Preflight ctx machineID p s).1 ∧
      (mw.Preflight clk ctx machineID p (s, k)).2.1
        = (mw.next.Preflight ctx machineID p s).2) ∧
    ((mw.RuleDownload clk ctx machineID (s, k)).1 = (mw.next.RuleDownload ctx machineID s).1 ∧
      (mw.RuleDownload clk ctx machineID (s, k)).2.1
        = (mw.next.RuleDownload ctx machineID s).2) :=
  ⟨⟨rfl, rfl⟩, ⟨rfl, rfl⟩⟩

/-- The claim C18 around the service on the example store, which counts its
lookups: the decorated `Preflight` of `known-machine` succeeds after one lookup,
and the decorated `RuleDownload` on the empty store fails with the error of the
`global` lookup after two. -/
theorem logging_decorator_transparent_witness :
    ((logmw.Preflight ⟨SantaService.asService ⟨exampleStore⟩⟩ default () "known-machine"
        default (0, default)).1 = (some knownDocument.Preflight, none) ∧
      (logmw.Preflight ⟨SantaService.asService ⟨exampleStore⟩⟩ default () "known-machine"
        default (0, default)).2.1 = 1) ∧
    ((logmw.RuleDownload ⟨SantaService.asService ⟨emptyStore⟩⟩ default () "m1"
        (0, default)).1 = ([], some "no config for global") ∧
      (logmw.RuleDownload ⟨SantaService.asService ⟨emptyStore⟩⟩ default () "m1"
        (0, default)).2.1 = 2) :=
  ⟨⟨(logging_decorator_transparent ⟨SantaService.asService ⟨exampleStore⟩⟩ default ()
        "known-machine" default 0 default).1.1.trans (by decide),
     (logging_decorator_transparent ⟨SantaService.asService ⟨exampleStore⟩⟩ default ()
        "known-machine" default 0 default).1.2.trans (by decide)⟩,
   ⟨(logging_decorator_transparent ⟨SantaService.asService ⟨emptyStore⟩⟩ default ()
        "m1" default 0 default).2.1.trans (by decide),
     (logging_decorator_transparent ⟨SantaService.asService ⟨emptyStore⟩⟩ default ()
        "m1" default 0 default).2.2.trans (by decide)⟩⟩

/-- C19, as stated, fails: two `Preflight` calls through the decorator that
differ only in the hostname of the payload, at the same clock readings, emit
records that differ apart from the timing fields. -/
theorem preflight_log_depends_on_payload_counterexample :
    (logmw.Preflight ⟨SantaService.asService ⟨exampleStore⟩⟩ default () "known-machine"
        { (default : santa.PreflightPayload) with Hostname := "host-a" }
        (0, default)).2.2.untimed
      ≠ (logmw.Preflight ⟨SantaService.asService ⟨exampleStore⟩⟩ default () "known-machine"
        { (default : santa.PreflightPayload) with Hostname := "host-b" }
        (0, default)).2.2.untimed := by
  decide

/-- C19, amended: a decorated `RuleDownload` adds one record to the logger, with
the method, the machine id, the error and the duration, and prints nothing.  A
decorated `Preflight` adds one record to the logger that carries, besides
those, the whole payload.  When the payload's client mode encodes it prints
one JSON line, which is exactly the event type, the machine id, the payload's
hostname, OS version and build, model identifier, Santa version, client mode,
serial number, primary user, seven rule counts and clean-sync flag, the
timestamp and the duration, and the message of the error when the call failed;
when the client mode does not encode it prints nothing.  Two decorated
`Preflight` calls with the same machine id and payload, whose wrapped calls
return the same error, emit records that are equal apart from the timing
fields. -/
theorem log_records_carry_payload {Ctx σ : Type} (mw : logmw Ctx σ) (clk clk2 : Clock)
    (ctx : Ctx) (machineID : String) (p : santa.PreflightPayload) (s s2 : σ) (k : LogSink) :
    ((mw.RuleDownload clk ctx machineID (s, k)).2.2
      = ⟨k.logger ++ [[("method", .str "RuleDownload"), ("machine_id", .str machineID),
          ("err", .err (mw.next.RuleDownload ctx machineID s).1.2),
          ("took", .duration clk.took)]], k.stdout⟩) ∧
    ((mw.Preflight clk ctx machineID p (s, k)).2.2.logger
      = k.logger ++ [[("method", .str "Preflight"), ("machine_id", .str machineID),
          ("preflight_payload", .payload p),
          ("err", .err (mw.next.Preflight ctx machineID p s).1.2),
          ("took", .duration clk.took)]]) ∧
    ((mw.Preflight clk ctx machineID p (s, k)).2.2.stdout
      = if (santa.ClientMode.MarshalText p.ClientMode).2 = none then
          k.stdout ++ [[("event_type", .str "preflight"),
            ("machine_id", .str machineID),
            ("hostname", .str p.Hostname),
            ("os_version", .str p.OSVersion),
            ("os_build", .str p.OSBuild),
            ("model_identifier", .str p.ModelIdentifier),
            ("santa_version", .str p.SantaVersion),
            ("client_mode", .clientMode p.ClientMode),
            ("serial_number", .str p.SerialNumber),
            ("primary_user", .str p.PrimaryUser),
            ("binary_rule_count", .int p.BinaryRuleCount),
            ("certificate_rule_count", .int p.CertificateRuleCount),
            ("compiler_rule_count", .int p.CompilerRuleCount),
            ("transitive_rule_count", .int p.TransitiveRuleCount),
            ("teamid_rule_count", .int p.TeamIDRuleCount),
            ("signingid_rule_count", .int p.SigningIDRuleCount),
            ("cdhash_rule_count", .int p.CdHashRuleCount),
            ("request_clean_sync", .bool p.RequestCleanSync),
            ("timestamp", .str clk.timestamp),
            ("took_ms", .int clk.took_ms)] ++
            (match (mw.next.Preflight ctx machineID p s).1.2 with
              | some e => [("error", .str e)]
              | none => [])]
        else k.stdout) ∧
    ((mw.next.Preflight ctx machineID p s).1.2 = (mw.next.Preflight ctx machineID p s2).1.2 →
      (mw.Preflight clk ctx machineID p (s, k)).2.2.untimed
        = (mw.Preflight clk2 ctx machineID p (s2, k)).2.2.untimed) := by
  refine ⟨rfl, rfl, ?_, ?_⟩
  · rcases h : mw.next.Preflight ctx machineID p s with ⟨⟨pf, _ | e⟩, s1⟩ <;>
      by_cases hcm : (santa.ClientMode.MarshalText p.ClientMode).2 = none <;>
      simp [logmw.Preflight, h, hcm]
  · intro herr
    rcases h : mw.next.Preflight ctx machineID p s with ⟨⟨pf, err⟩, s1⟩
    rcases h2 : mw.next.Preflight ctx machineID p s2 with ⟨⟨pf2, err2⟩, s3⟩
    rw [h, h2] at herr
    simp only at herr
    subst herr
    by_cases hcm : (santa.ClientMode.MarshalText p.ClientMode).2 = none <;>
      rcases err with _ | e <;>
      simp [logmw.Preflight, h, h2, hcm, LogSink.untimed, LogRecord.untimed, timingKeys,
        List.filter]

/-- The amended C19 around the service on the example store: two decorated
`Preflight` calls of `known-machine` with the same payload, at different clock
readings and store states, emit records equal apart from the timing fields. -/
theorem log_records_carry_payload_witness :
    (logmw.Preflight ⟨SantaService.asService ⟨exampleStore⟩⟩ ⟨1500, "2026-01-01T00:00:00Z", 1⟩
        () "known-machine" { (default : santa.PreflightPayload) with Hostname := "host-a" }
        (0, default)).2.2.untimed
      = (logmw.Preflight ⟨SantaService.asService ⟨exampleStore⟩⟩
        ⟨2500, "2026-01-01T00:00:05Z", 2⟩
        () "known-machine" { (default : santa.PreflightPayload) with Hostname := "host-a" }
        (7, default)).2.2.untimed :=
  (log_records_carry_payload ⟨SantaService.asService ⟨exampleStore⟩⟩
    ⟨1500, "2026-01-01T00:00:00Z", 1⟩ ⟨2500, "2026-01-01T00:00:05Z", 2⟩ () "known-machine"
    { (default : santa.PreflightPayload) with Hostname := "host-a" } 0 7 default).2.2.2
    (by decide)

end moroz

namespace santa

/-- Decoding a `RuleType` either stores one value for every receiver, without
error, or leaves every receiver as it was, with an error. -/
theorem ruleType_unmarshal_cases (quote : String → String) (t : String) :
    (∃ v, ∀ r, RuleType.UnmarshalText quote r t = (v, none)) ∨
    (∀ r, RuleType.UnmarshalText quote r t
      = (r, some (Errorf_q quote "unknown rule_type value " t))) := by
  by_cases h : t ∈ RuleType.tokens
  · left
    simp only [RuleType.tokens, List.mem_cons, List.mem_singleton, List.mem_nil_iff,
      or_false] at h
    rcases h with rfl | rfl | rfl | rfl | rfl | rfl <;> exact ⟨_, fun _ => rfl⟩
  · right
    intro r
    simp only [RuleType.tokens, List.mem_cons, List.mem_singleton, not_or, List.mem_nil_iff,
      not_false_eq_true, and_true, or_false] at h
    unfold RuleType.UnmarshalText
    split <;> first | (exfalso; simp_all; done) | rfl

/-- Decoding a `Policy` either stores one value for every receiver, without
error, or leaves every receiver as it was, with an error. -/
theorem policy_unmarshal_cases (quote : String → String) (t : String) :
    (∃ v, ∀ p, Policy.UnmarshalText quote p t = (v, none)) ∨
    (∀ p, Policy.UnmarshalText quote p t
      = (p, some (Errorf_q quote "unknown policy value " t))) := by
  by_cases h : t ∈ Policy.tokens
  · left
    simp only [Policy.tokens, List.mem_cons, List.mem_singleton, List.mem_nil_iff,
      or_false] at h
    rcases h with rfl | rfl | rfl | rfl | rfl | rfl | rfl | rfl | rfl | rfl | rfl <;>
      exact ⟨_, fun _ => rfl⟩
  · right
    intro p
    simp only [Policy.tokens, List.mem_cons, List.mem_singleton, not_or, List.mem_nil_iff,
      not_false_eq_true, and_true, or_false] at h
    unfold Policy.UnmarshalText
    split <;> first | (exfalso; simp_all; done) | rfl

/-- Decoding a `ClientMode` either stores one value for every receiver, without
error, or leaves every receiver as it was, with an error. -/
theorem clientMode_unmarshal_cases (quote : String → String) (t : String) :
    (∃ v, ∀ c, ClientMode.UnmarshalText quote c t = (v, none)) ∨
    (∀ c, ClientMode.UnmarshalText quote c t
      = (c, some (Errorf_q quote "unknown client_mode value " t))) := by
  by_cases h : t ∈ ClientMode.tokens
  · left
    simp only [ClientMode.tokens, List.mem_cons, List.mem_singleton, List.mem_nil_iff,
      or_false] at h
    rcases h with rfl | rfl <;> exact ⟨_, fun _ => rfl⟩
  · right
    intro c
    simp only [ClientMode.tokens, List.mem_cons, List.mem_singleton, not_or, List.mem_nil_iff,
      not_false_eq_true, and_true, or_false] at h
    unfold ClientMode.UnmarshalText
    split <;> first | (exfalso; simp_all; done) | rfl

/-- Decoding a `SyncType` either stores one value for every receiver, without
error, or leaves every receiver as it was, with an error. -/
theorem syncType_unmarshal_cases (quote : String → String) (t : String) :
    (∃ v, ∀ s, SyncType.UnmarshalText quote s t = (v, none)) ∨
    (∀ s, SyncType.UnmarshalText quote s t
      = (s, some (Errorf_q quote "unknown sync_type value " t))) := by
  by_cases h : t ∈ SyncType.tokens
  · left
    simp only [SyncType.tokens, List.mem_cons, List.mem_singleton, List.mem_nil_iff,
      or_false] at h
    rcases h with rfl | rfl | rfl | rfl | rfl <;> exact ⟨_, fun _ => rfl⟩
  · right
    intro s
    simp only [SyncType.tokens, List.mem_cons, List.mem_singleton, not_or, List.mem_nil_iff,
      not_false_eq_true, and_true, or_false] at h
    unfold SyncType.UnmarshalText
    split <;> first | (exfalso; simp_all; done) | rfl

/-- Decoding a `FileAccessAction` either stores one value for every receiver,
without error, or leaves every receiver as it was, with an error. -/
theorem fileAccessAction_unmarshal_cases (quote : String → String) (t : String) :
    (∃ v, ∀ a, FileAccessAction.UnmarshalText quote a t = (v, none)) ∨
    (∀ a, FileAccessAction.UnmarshalText quote a t
      = (a, some (Errorf_q quote "unknown override_file_access_action value " t))) := by
  by_cases h : t ∈ FileAccessAction.tokens
  · left
    simp only [FileAccessAction.tokens, List.mem_cons, List.mem_singleton, List.mem_nil_iff,
      or_false] at h
    rcases h with rfl | rfl | rfl | rfl | rfl | rfl | rfl | rfl <;> exact ⟨_, fun _ => rfl⟩
  · right
    intro a
    simp only [FileAccessAction.tokens, List.mem_cons, List.mem_singleton, not_or,
      List.mem_nil_iff, not_false_eq_true, and_true, or_false] at h
    unfold FileAccessAction.UnmarshalText
    split <;> first | (exfalso; simp_all; done) | rfl

/-- C24: enum decoding is atomic with respect to its receiver.  For each of the
five enumerations, every token and every two receiver values `r` and `r2`: when
`UnmarshalText` returns an error the receiver keeps the value it held before
the call, and when it succeeds on `r` it succeeds on `r2` too and stores the
same value. -/
theorem unmarshal_atomic (quote : String → String) (t : String) :
    (∀ r r2 : RuleType,
      ((RuleType.UnmarshalText quote r t).2 ≠ none →
        (RuleType.UnmarshalText quote r t).1 = r) ∧
      ((RuleType.UnmarshalText quote r t).2 = none →
        RuleType.UnmarshalText quote r2 t = RuleType.UnmarshalText quote r t)) ∧
    (∀ p p2 : Policy,
      ((Policy.UnmarshalText quote p t).2 ≠ none →
        (Policy.UnmarshalText quote p t).1 = p) ∧
      ((Policy.UnmarshalText quote p t).2 = none →
        Policy.UnmarshalText quote p2 t = Policy.UnmarshalText quote p t)) ∧
    (∀ c c2 : ClientMode,
      ((ClientMode.UnmarshalText quote c t).2 ≠ none →
        (ClientMode.UnmarshalText quote c t).1 = c) ∧
      ((ClientMode.UnmarshalText quote c t).2 = none →
        ClientMode.UnmarshalText quote c2 t = ClientMode.UnmarshalText quote c t)) ∧
    (∀ s s2 : SyncType,
      ((SyncType.UnmarshalText quote s t).2 ≠ none →
        (SyncType.UnmarshalText quote s t).1 = s) ∧
      ((SyncType.UnmarshalText quote s t).2 = none →
        SyncType.UnmarshalText quote s2 t = SyncType.UnmarshalText quote s t)) ∧
    (∀ a a2 : FileAccessAction,
      ((FileAccessAction.UnmarshalText quote a t).2 ≠ none →
        (FileAccessAction.UnmarshalText quote a t).1 = a) ∧
      ((FileAccessAction.UnmarshalText quote a t).2 = none →
        FileAccessAction.UnmarshalText quote a2 t
          = FileAccessAction.UnmarshalText quote a t)) := by
  refine ⟨fun r r2 => ?_, fun r r2 => ?_, fun r r2 => ?_, fun r r2 => ?_, fun r r2 => ?_⟩
  · rcases ruleType_unmarshal_cases quote t with ⟨v, hv⟩ | he
    · exact ⟨fun h => absurd (by rw [hv r]) h, fun _ => by rw [hv r, hv r2]⟩
    · exact ⟨fun _ => by rw [he r], fun h => by rw [he r] at h; cases h⟩
  · rcases policy_unmarshal_cases quote t with ⟨v, hv⟩ | he
    · exact ⟨fun h => absurd (by rw [hv r]) h, fun _ => by rw [hv r, hv r2]⟩
    · exact ⟨fun _ => by rw [he r], fun h => by rw [he r] at h; cases h⟩
  · rcases clientMode_unmarshal_cases quote t with ⟨v, hv⟩ | he
    · exact ⟨fun h => absurd (by rw [hv r]) h, fun _ => by rw [hv r, hv r2]⟩
    · exact ⟨fun _ => by rw [he r], fun h => by rw [he r] at h; cases h⟩
  · rcases syncType_unmarshal_cases quote t with ⟨v, hv⟩ | he
    · exact ⟨fun h => absurd (by rw [hv r]) h, fun _ => by rw [hv r, hv r2]⟩
    · exact ⟨fun _ => by rw [he r], fun h => by rw [he r] at h; cases h⟩
  · rcases fileAccessAction_unmarshal_cases quote t with ⟨v, hv⟩ | he
    · exact ⟨fun h => absurd (by rw [hv r]) h, fun _ => by rw [hv r, hv r2]⟩
    · exact ⟨fun _ => by rw [he r], fun h => by rw [he r] at h; cases h⟩

/-- The claim C24 on `Policy`: the rejected token `allowlist` leaves a receiver
holding Remove at Remove, and the token `CEL` stores Cel over Remove as it does
over Blocklist. -/
theorem unmarshal_atomic_witness :
    (Policy.UnmarshalText (fun s => "\"" ++ s ++ "\"") Remove "allowlist").1 = Remove ∧
    Policy.UnmarshalText (fun s => "\"" ++ s ++ "\"") Blocklist "CEL"
      = Policy.UnmarshalText (fun s => "\"" ++ s ++ "\"") Remove "CEL" :=
  ⟨((unmarshal_atomic (fun s => "\"" ++ s ++ "\"") "allowlist").2.1 Remove Remove).1
      (by decide),
   ((unmarshal_atomic (fun s => "\"" ++ s ++ "\"") "CEL").2.1 Remove Blocklist).2
      (by decide)⟩

end santa

namespace moroz

/-- C25: when config resolution fails with the error `e`, the response of the
rule-download endpoint carries only the error: its Rules are empty and its
Cursor is the empty string, although `SantaService.RuleDownload` itself returns
the Rules of the Config that came with the error.  In particular, when the
machine's own lookup fails and the `global` lookup returns the Config `g` with
the error, the Rules of `g` are returned by `RuleDownload` and dropped by the
endpoint. -/
theorem rule_download_failure_carries_only_error {Ctx σ : Type} (svc : SantaService Ctx σ)
    (ctx : Ctx) (request : ruleRequest) (s : σ) (e : santa.Error)
    (h : (svc.config ctx request.MachineID s).1.2 = some e) :
    (makeRuleDownloadEndpoint svc.asService ctx request s).1 = (⟨[], "", some e⟩, none) ∧
    (svc.RuleDownload ctx request.MachineID s).1
      = ((svc.config ctx request.MachineID s).1.1.Rules, some e) ∧
    (∀ c e1 s1 g s2, svc.repo.Config ctx request.MachineID s = ((c, some e1), s1) →
      svc.repo.Config ctx "global" s1 = ((g, some e), s2) →
      (svc.RuleDownload ctx request.MachineID s).1 = (g.Rules, some e) ∧
      (makeRuleDownloadEndpoint svc.asService ctx request s).1.1.Rules = []) := by
  have hrd : (svc.RuleDownload ctx request.MachineID s).1
      = ((svc.config ctx request.MachineID s).1.1.Rules, some e) := by
    unfold SantaService.RuleDownload
    rcases hc : svc.config ctx request.MachineID s with ⟨⟨c, err⟩, s1⟩
    rw [hc] at h
    simp only at h
    subst h
    rfl
  have hep : (makeRuleDownloadEndpoint svc.asService ctx request s).1
      = (⟨[], "", some e⟩, none) := by
    rcases hr : svc.RuleDownload ctx request.MachineID s with ⟨⟨rules, err⟩, s1⟩
    rw [hr] at hrd
    simp only [Prod.mk.injEq] at hrd
    obtain ⟨-, rfl⟩ := hrd
    simp only [makeRuleDownloadEndpoint, SantaService.asService, hr]
  refine ⟨hep, hrd, ?_⟩
  intro c e1 s1 g s2 h1 h2
  have hc : svc.config ctx request.MachineID s = ((g, some e), s2) := by
    unfold SantaService.config
    rw [h1]
    exact h2
  rw [hrd, hep, hc]
  exact ⟨rfl, rfl⟩

/-- The claim C25 on the failing store, whose lookups return a rule with their
error: `RuleDownload` returns that rule with the error of the `global` lookup,
and the endpoint's response has the error, no rule and the empty cursor. -/
theorem rule_download_failure_carries_only_error_witness :
    (makeRuleDownloadEndpoint (SantaService.asService ⟨failingStore⟩) ()
        ⟨"m1", "c1"⟩ 0).1
      = (⟨[], "", some "store unavailable for global"⟩, none) ∧
    (SantaService.RuleDownload ⟨failingStore⟩ () "m1" 0).1
      = (knownDocument.Rules, some "store unavailable for global") ∧
    knownDocument.Rules ≠ [] :=
  ⟨(rule_download_failure_carries_only_error ⟨failingStore⟩ () ⟨"m1", "c1"⟩ 0
      "store unavailable for global" (by decide)).1,
   (rule_download_failure_carries_only_error ⟨failingStore⟩ () ⟨"m1", "c1"⟩ 0
      "store unavailable for global" (by decide)).2.1.trans (by decide),
   by decide⟩

end moroz

namespace moroz

/-- What the two decoders leave behind, for every library and request:
`decodeRuleRequest` closes the body on every return, both decoders close every
zlib reader they opened, and `decodePreflightRequest` closes the body when the
header was accepted but leaves it as it was when the header is rejected. -/
theorem decoders_release_resources {π : Type} (lib : Library)
    (mid : π → String × Option santa.Error) (r : Request π) :
    (decodeRuleRequest lib mid r).2.Body.closed = true ∧
    (∀ b ∈ (decodeRuleRequest lib mid r).2.zlibReaders, b = true) ∧
    (∀ b ∈ (decodePreflightRequest lib mid r).2.zlibReaders, b = true) ∧
    (lib.zlib_NewReader r.Body.stream = none →
      (decodePreflightRequest lib mid r).2.Body.closed = true) ∧
    (lib.zlib_NewReader r.Body.stream ≠ none →
      (decodePreflightRequest lib mid r).2.Body.closed = r.Body.closed) := by
  refine ⟨?_, ?_, ?_, ?_, ?_⟩
  · unfold decodeRuleRequest
    rcases mid r.route with ⟨id, _ | e⟩
    · simp only
      split_ifs <;> rfl
    · rfl
  · unfold decodeRuleRequest
    rcases mid r.route with ⟨id, _ | e⟩
    · simp only
      split_ifs
      · simp
      · rcases lib.zlib_NewReader (bytes.NewReader (io.ReadAll r.Body.stream).1) with _ | e1 <;>
          simp
    · simp
  · unfold decodePreflightRequest
    rcases lib.zlib_NewReader r.Body.stream with _ | e
    · rcases mid r.route with ⟨id, _ | e1⟩
      · rcases lib.json_Decode (lib.zlib_Read r.Body.stream) with ⟨p, _ | e2⟩ <;> simp
      · simp
    · simp
  · intro h
    unfold decodePreflightRequest
    rw [h]
    rcases mid r.route with ⟨id, _ | e1⟩
    · rcases lib.json_Decode (lib.zlib_Read r.Body.stream) with ⟨p, _ | e2⟩ <;> rfl
    · rfl
  · intro h
    unfold decodePreflightRequest
    rcases ho : lib.zlib_NewReader r.Body.stream with _ | e
    · exact absurd ho h
    · rfl

/-- C22 at a failing input: a preflight request for machine `m1` whose body is
the JSON text itself, not a zlib stream, and is open.  `decodePreflightRequest`
returns the header error and leaves the body read but not closed, where
`decodeRuleRequest` closes the body of the same request. -/
theorem preflight_rejected_header_leaves_body_open :
    decodePreflightRequest exampleLibrary exampleMachineID
        ⟨["preflight", "m1"], ⟨⟨examplePreflightBody, none⟩, false, false⟩⟩
      = ((none, some "zlib: invalid header"),
          ⟨⟨⟨examplePreflightBody, none⟩, true, false⟩, []⟩) ∧
    (decodeRuleRequest exampleLibrary exampleMachineID
        ⟨["preflight", "m1"], ⟨⟨examplePreflightBody, none⟩, false, false⟩⟩).2.Body.closed
      = true := by
  decide

/-- `decodePreflightRequest` returns an error and no request exactly when the
header is rejected, the machine id cannot be derived, or the content does not
decode. -/
theorem decodePreflightRequest_fails_iff {π : Type} (lib : Library)
    (mid : π → String × Option santa.Error) (r : Request π) :
    ((decodePreflightRequest lib mid r).1.1 = none ∧
        (decodePreflightRequest lib mid r).1.2 ≠ none) ↔
      (lib.zlib_NewReader r.Body.stream ≠ none ∨ (mid r.route).2 ≠ none ∨
        (lib.json_Decode (lib.zlib_Read r.Body.stream)).2 ≠ none) := by
  unfold decodePreflightRequest
  rcases lib.zlib_NewReader r.Body.stream with _ | e
  · rcases mid r.route with ⟨id, _ | e1⟩
    · rcases lib.json_Decode (lib.zlib_Read r.Body.stream) with ⟨p, _ | e2⟩ <;> simp
    · simp
  · simp

/-- An error that has been saved stays saved. -/
theorem saveError_of_saved (saved err : Option santa.Error) (h : saved ≠ none) :
    json.saveError saved err ≠ none := by
  unfold json.saveError
  cases saved with
  | none => exact absurd rfl h
  | some e => simp

/-- An error is saved when none was saved before. -/
theorem saveError_of_error (saved err : Option santa.Error) (h : err ≠ none) :
    json.saveError saved err ≠ none := by
  unfold json.saveError
  cases saved with
  | none => exact h
  | some e => simp

/-- Storing a member keeps a saved error. -/
theorem decodeMember_keeps_error (quote : String → String) (m : JsonMember)
    (acc : santa.PreflightPayload × Option santa.Error) (h : acc.2 ≠ none) :
    (json.decodeMember quote m acc).2 ≠ none := by
  cases m <;> exact saveError_of_saved _ _ h

/-- Storing members keeps a saved error. -/
theorem decodeMembers_keeps_error (quote : String → String) (ms : List JsonMember)
    (acc : santa.PreflightPayload × Option santa.Error) (h : acc.2 ≠ none) :
    (json.decodeMembers quote ms acc).2 ≠ none := by
  induction ms generalizing acc with
  | nil => exact h
  | cons m ms ih => exact ih _ (decodeMember_keeps_error quote m acc h)

/-- Storing members among which `client_mode` holds a token that `ClientMode`
rejects ends with an error. -/
theorem decodeMembers_client_mode_error (quote : String → String) (ms : List JsonMember)
    (acc : santa.PreflightPayload × Option santa.Error) (t : String)
    (hm : JsonMember.client_mode t ∈ ms) (ht : t ∉ santa.ClientMode.tokens) :
    (json.decodeMembers quote ms acc).2 ≠ none := by
  induction ms generalizing acc with
  | nil => cases hm
  | cons m ms ih =>
    rcases List.mem_cons.mp hm with rfl | htail
    · refine decodeMembers_keeps_error quote ms _ (saveError_of_error _ _ ?_)
      exact fun h => ht ((santa.clientMode_unmarshal_ok_iff quote _ t).mp h)
    · exact ih _ htail

/-- Storing members among which `override_file_access_action` holds a token that
`FileAccessAction` rejects ends with an error. -/
theorem decodeMembers_file_access_action_error (quote : String → String)
    (ms : List JsonMember) (acc : santa.PreflightPayload × Option santa.Error) (t : String)
    (hm : JsonMember.override_file_access_action t ∈ ms)
    (ht : t ∉ santa.FileAccessAction.tokens) :
    (json.decodeMembers quote ms acc).2 ≠ none := by
  induction ms generalizing acc with
  | nil => cases hm
  | cons m ms ih =>
    rcases List.mem_cons.mp hm with rfl | htail
    · refine decodeMembers_keeps_error quote ms _ (saveError_of_error _ _ ?_)
      exact fun h => ht ((santa.fileAccessAction_unmarshal_ok_iff quote _ t).mp h)
    · exact ih _ htail

/-- `json.Decode` returns an error when a member of the scanned object holds a
token that the enum codec rejects. -/
theorem json_Decode_enum_error (quote : String → String) (scan : Stream → JsonScan)
    (st : Stream) (t : String)
    (h : (JsonMember.client_mode t ∈ (scan st).members ∧ t ∉ santa.ClientMode.tokens) ∨
      (JsonMember.override_file_access_action t ∈ (scan st).members ∧
        t ∉ santa.FileAccessAction.tokens)) :
    (json.Decode quote scan st).2 ≠ none := by
  unfold json.Decode
  rcases (scan st).err with _ | e
  · rcases h with ⟨hm, ht⟩ | ⟨hm, ht⟩
    · exact decodeMembers_client_mode_error quote _ _ t hm ht
    · exact decodeMembers_file_access_action_error quote _ _ t hm ht
  · simp

/-- C23, as stated, fails: a preflight body whose zlib header and stored block
are right and whose checksum trailer is wrong is not a zlib stream (inflating it
ends with the checksum error), and yet it decodes into the request for `m1`,
without error: the JSON value is complete before the trailer is checked. -/
theorem preflight_bad_trailer_is_accepted_counterexample :
    exampleBadTrailer ≠ exampleDeflate examplePreflightBody ∧
    (exampleRead ⟨exampleBadTrailer, none⟩).err = some "zlib: invalid checksum" ∧
    (decodePreflightRequest exampleLibrary exampleMachineID
        ⟨["preflight", "m1"], ⟨⟨exampleBadTrailer, none⟩, false, false⟩⟩).1.2 = none ∧
    (decodePreflightRequest exampleLibrary exampleMachineID
        ⟨["preflight", "m1"], ⟨⟨exampleBadTrailer, none⟩, false, false⟩⟩).1.1.map
        (fun req => (req.MachineID, req.payload.Hostname, req.payload.MachineID))
      = some ("m1", "host-a", "m2") := by
  decide

/-- C23, amended: the preflight decoder never swallows a failure of the enum
codec or of the decoding.  With `Decode` handing the JSON strings under
`client_mode` and `override_file_access_action` to `UnmarshalText`, a body whose
content holds there a token that the enum codec rejects gives an error and no
request, so no field is defaulted.  For every library, a rejected zlib header
gives that error and no request, and an error of `Decode` on the inflated
content gives an error and no request, the error of `Decode` itself when the
header and the machine id are fine.  A body whose header is accepted and whose
content decodes gives the request, whatever error ends the inflated stream. -/
theorem preflight_decode_errors_surface {π : Type} (quote : String → String)
    (lib : Library) (scan : Stream → JsonScan) (mid : π → String × Option santa.Error)
    (r : Request π) :
    (∀ t, JsonMember.client_mode t ∈ (scan (lib.zlib_Read r.Body.stream)).members →
      t ∉ santa.ClientMode.tokens →
      (decodePreflightRequest (lib.withDecode quote scan) mid r).1.1 = none ∧
      (decodePreflightRequest (lib.withDecode quote scan) mid r).1.2 ≠ none) ∧
    (∀ t, JsonMember.override_file_access_action t
        ∈ (scan (lib.zlib_Read r.Body.stream)).members →
      t ∉ santa.FileAccessAction.tokens →
      (decodePreflightRequest (lib.withDecode quote scan) mid r).1.1 = none ∧
      (decodePreflightRequest (lib.withDecode quote scan) mid r).1.2 ≠ none) ∧
    (∀ e, lib.zlib_NewReader r.Body.stream = some e →
      (decodePreflightRequest lib mid r).1 = (none, some e)) ∧
    ((lib.json_Decode (lib.zlib_Read r.Body.stream)).2 ≠ none →
      (decodePreflightRequest lib mid r).1.1 = none ∧
      (decodePreflightRequest lib mid r).1.2 ≠ none ∧
      (lib.zlib_NewReader r.Body.stream = none → (mid r.route).2 = none →
        (decodePreflightRequest lib mid r).1.2
          = (lib.json_Decode (lib.zlib_Read r.Body.stream)).2)) ∧
    (∀ id p, lib.zlib_NewReader r.Body.stream = none → mid r.route = (id, none) →
      lib.json_Decode (lib.zlib_Read r.Body.stream) = (p, none) →
      (decodePreflightRequest lib mid r).1 = (some ⟨id, p⟩, none)) := by
  refine ⟨?_, ?_, ?_, ?_, ?_⟩
  · intro t hm ht
    exact (decodePreflightRequest_fails_iff (lib.withDecode quote scan) mid r).mpr
      (Or.inr (Or.inr (json_Decode_enum_error quote scan _ t (Or.inl ⟨hm, ht⟩))))
  · intro t hm ht
    exact (decodePreflightRequest_fails_iff (lib.withDecode quote scan) mid r).mpr
      (Or.inr (Or.inr (json_Decode_enum_error quote scan _ t (Or.inr ⟨hm, ht⟩))))
  · intro e h
    simp only [decodePreflightRequest, h]
  · intro h
    obtain ⟨h1, h2⟩ := (decodePreflightRequest_fails_iff lib mid r).mpr (Or.inr (Or.inr h))
    refine ⟨h1, h2, ?_⟩
    intro ho hm
    rcases hmid : mid r.route with ⟨id, err⟩
    rw [hmid] at hm
    simp only at hm
    subst hm
    rcases hd : lib.json_Decode (lib.zlib_Read r.Body.stream) with ⟨p, _ | e2⟩
    · rw [hd] at h; exact absurd rfl h
    · simp only [decodePreflightRequest, ho, hmid, hd]
  · intro id p hopen hmid hdec
    simp only [decodePreflightRequest, hopen, hmid, hdec]

/-- The amended C23 on the example library: a compressed preflight body whose
`client_mode` is the lower-case `monitor` is rejected with the error of
`ClientMode.UnmarshalText`, and so is one whose `override_file_access_action` is
`audit_only`; no request is returned. -/
theorem preflight_decode_errors_surface_witness :
    ((decodePreflightRequest exampleLibrary exampleMachineID
        ⟨["preflight", "m1"],
          ⟨⟨exampleDeflate (ascii "\x7b\"client_mode\":\"monitor\"\x7d"), none⟩, false,
            false⟩⟩).1.1 = none ∧
      (decodePreflightRequest exampleLibrary exampleMachineID
        ⟨["preflight", "m1"],
          ⟨⟨exampleDeflate (ascii "\x7b\"client_mode\":\"monitor\"\x7d"), none⟩, false,
            false⟩⟩).1.2 ≠ none) ∧
    (decodePreflightRequest exampleLibrary exampleMachineID
        ⟨["preflight", "m1"],
          ⟨⟨exampleDeflate (ascii "\x7b\"client_mode\":\"monitor\"\x7d"), none⟩, false,
            false⟩⟩).1 = (none, some "unknown client_mode value \"monitor\"") ∧
    ((decodePreflightRequest exampleLibrary exampleMachineID
        ⟨["preflight", "m1"],
          ⟨⟨exampleDeflate (ascii "\x7b\"override_file_access_action\":\"audit_only\"\x7d"),
            none⟩, false, false⟩⟩).1.1 = none ∧
      (decodePreflightRequest exampleLibrary exampleMachineID
        ⟨["preflight", "m1"],
          ⟨⟨exampleDeflate (ascii "\x7b\"override_file_access_action\":\"audit_only\"\x7d"),
            none⟩, false, false⟩⟩).1.2 ≠ none) :=
  ⟨(preflight_decode_errors_surface exampleQuote exampleLibrary exampleScan exampleMachineID
      ⟨["preflight", "m1"],
        ⟨⟨exampleDeflate (ascii "\x7b\"client_mode\":\"monitor\"\x7d"), none⟩, false,
          false⟩⟩).1 "monitor" (List.Mem.head _) (by decide),
   by decide,
   (preflight_decode_errors_surface exampleQuote exampleLibrary exampleScan exampleMachineID
      ⟨["preflight", "m1"],
        ⟨⟨exampleDeflate (ascii "\x7b\"override_file_access_action\":\"audit_only\"\x7d"),
          none⟩, false, false⟩⟩).2.1 "audit_only" (List.Mem.head _) (by decide)⟩

end moroz
